import Mathlib

/-!
Verification of the pixelation/dithering worker (`src/workers/pixelator.worker.ts`).

Embedding conventions:
* JavaScript numbers are modelled as exact rationals (`ℚ`); every double is a
  rational, and all arithmetic the claims depend on (byte values, kernel
  fractions, k-means sums over small integers) is exact in both semantics.
* `Uint8ClampedArray` buffers are `List ℕ` of byte values; reading an index out
  of range yields `undefined`, which every arithmetic use in the worker turns
  into a stored `0`, so reads are `List.getD _ _ 0`; an out-of-range write on a
  typed array is a no-op, exactly the behaviour of `List.set`.
* The sRGB→Lab conversion (`rgbToXyz`/`xyzToLab`/`rgbToLab`) and the `getDeltaE`
  distance use transcendental floating-point operations (`Math.pow` with
  exponent 2.4 and 1/3, `Math.sqrt`).  They are modelled as opaque parameters
  `rgbToLab : RGB → LAB` and `getDeltaE : LAB → LAB → ℚ`; every theorem below is
  proved for an arbitrary choice of these functions, hence in particular for the
  source's concrete one.  Likewise `Math.sin`/`Math.PI` inside the Lanczos
  kernel are the parameters `sinQ`/`piQ`, and `Math.random` is a parameter
  `random : ℕ → ℚ` giving the value of the n-th call.
* JavaScript exceptions (indexing a member of `undefined`, invalid `ImageData`
  dimensions) are modelled with `Option`: `none` is a thrown exception, caught
  by the worker's `try`/`catch`.
-/

/-- The `RGB` interface of the worker: three numeric channels.  Palette entries
hold byte-valued integers; error-diffusion feeds accumulated floating-point
values into the same interface, so the fields are `ℚ`. -/
structure RGB where
  r : ℚ
  g : ℚ
  b : ℚ
deriving DecidableEq, Repr

/-- The `LAB` interface of the worker (perceptual colour, floating point). -/
structure LAB where
  l : ℚ
  a : ℚ
  b : ℚ
deriving DecidableEq, Repr

/-- A DOM `ImageData`: width, height and the RGBA byte buffer. -/
@[ext] structure ImageData where
  width : ℕ
  height : ℕ
  data : List ℕ
deriving DecidableEq, Repr

/-- Round half to even on `ℚ` (the conversion a `Uint8ClampedArray` applies to
a stored number, per the WebIDL clamped conversion). -/
def halfEven (q : ℚ) : ℤ :=
  let f := ⌊q⌋
  let frac := q - f
  if frac < 1/2 then f else if 1/2 < frac then f + 1 else if f % 2 = 0 then f else f + 1

/-- Storing a number into a `Uint8ClampedArray` slot: clamp to `[0, 255]` and
round ties to even. -/
def clampByte (q : ℚ) : ℕ :=
  if q ≤ 0 then 0 else if 255 ≤ q then 255 else (halfEven q).toNat

/-- JavaScript `Math.round`: round half toward positive infinity. -/
def jsRound (q : ℚ) : ℤ := ⌊q + 1/2⌋

/-- JavaScript `Math.round` followed by storage into a `Uint8ClampedArray` slot (the
already-integral result only gets clamped). -/
def roundClamp (q : ℚ) : ℕ := (min 255 (jsRound q)).toNat

/-- Storing an exact byte value is the identity. -/
theorem clampByte_natCast (n : ℕ) (h : n ≤ 255) : clampByte (n : ℚ) = n := by
  unfold clampByte halfEven
  rcases Nat.eq_zero_or_pos n with h0 | h0
  · subst h0; simp
  · have hn0 : ¬ ((n : ℚ) ≤ 0) := by
      simp only [not_le]
      exact_mod_cast h0
    rcases eq_or_lt_of_le h with h255 | h255
    · subst h255
      norm_num
    · have : ¬ ((255 : ℚ) ≤ (n : ℚ)) := by
        simp only [not_le]
        exact_mod_cast h255
      simp only [hn0, if_false, this]
      have hfl : ⌊(n : ℚ)⌋ = (n : ℤ) := by exact_mod_cast Int.floor_natCast n
      simp [hfl]

-- === hexToRgb =========================================================

/-- Whether a character matches the regex class `[a-f\d]` (case-insensitive,
i.e. also `[A-F]`). -/
def isHexDigit (c : Char) : Bool :=
  decide (('0' ≤ c ∧ c ≤ '9') ∨ ('a' ≤ c ∧ c ≤ 'f') ∨ ('A' ≤ c ∧ c ≤ 'F'))

/-- Numeric value of a hex digit, as consumed by `parseInt(_, 16)`. -/
def hexDigitVal (c : Char) : ℕ :=
  if '0' ≤ c ∧ c ≤ '9' then c.toNat - '0'.toNat
  else if 'a' ≤ c ∧ c ≤ 'f' then c.toNat - 'a'.toNat + 10
  else if 'A' ≤ c ∧ c ≤ 'F' then c.toNat - 'A'.toNat + 10
  else 0

/-- Strip the optional leading `#` accepted by the regex `/^#?.../`. -/
def stripHash : List Char → List Char
  | '#' :: rest => rest
  | cs => cs

/-- Does the string match `/^#?([a-f\d]{2})([a-f\d]{2})([a-f\d]{2})/i`?
(The regex is not end-anchored: trailing characters are ignored.) -/
def hexMatches (hex : String) : Bool :=
  match stripHash hex.toList with
  | c1 :: c2 :: c3 :: c4 :: c5 :: c6 :: _ =>
      isHexDigit c1 && isHexDigit c2 && isHexDigit c3 &&
      isHexDigit c4 && isHexDigit c5 && isHexDigit c6
  | _ => false

/-- Worker `hexToRgb` (lines 16–23): parse `#rrggbb` (optional `#`, prefix
match, case-insensitive); any non-matching string falls through to black. -/
def hexToRgb (hex : String) : RGB :=
  match stripHash hex.toList with
  | c1 :: c2 :: c3 :: c4 :: c5 :: c6 :: _ =>
      if isHexDigit c1 && isHexDigit c2 && isHexDigit c3 &&
         isHexDigit c4 && isHexDigit c5 && isHexDigit c6 then
        { r := ((16 * hexDigitVal c1 + hexDigitVal c2 : ℕ) : ℚ)
          g := ((16 * hexDigitVal c3 + hexDigitVal c4 : ℕ) : ℚ)
          b := ((16 * hexDigitVal c5 + hexDigitVal c6 : ℕ) : ℚ) }
      else { r := 0, g := 0, b := 0 }
  | _ => { r := 0, g := 0, b := 0 }


-- === rgbToHex =========================================================

/-- Lower-case hex digit character, as produced by `Number.toString(16)`. -/
def hexDigitChar (n : ℕ) : Char :=
  if n < 10 then Char.ofNat ('0'.toNat + n) else Char.ofNat ('a'.toNat + n - 10)

/-- The worker's `toHex` helper: `Math.round(c).toString(16)`, left-padded with
`0` to two characters.  The channel values reaching it are centroid means of
byte values, hence in `[0, 255]` after rounding; two hex digits suffice. -/
def toHex (c : ℚ) : List Char :=
  let n := (jsRound c).toNat
  let s := if n < 16 then [hexDigitChar n] else [hexDigitChar (n / 16 % 16), hexDigitChar (n % 16)]
  if s.length = 1 then '0' :: s else s

/-- Worker `rgbToHex` (lines 434–440): the template
`#rrggbb` followed by `.toUpperCase()`. -/
def rgbToHex (rgb : RGB) : String :=
  String.mk ((( '#' :: (toHex rgb.r ++ toHex rgb.g ++ toHex rgb.b))).map Char.toUpper)


-- === findClosestColor =================================================

/-- Worker `findClosestColor` (lines 262–276): Lab nearest-palette-colour
lookup, first-wins on ties (strict `<` against the running minimum).  The
JavaScript `minDist = Infinity` initial state is the `none` of the `Option ℚ`
accumulator: any finite distance beats it.  An empty palette makes the source
return `undefined` (its caller then throws); that is the `none` result. -/
def findClosestColor (rgbToLab : RGB → LAB) (getDeltaE : LAB → LAB → ℚ)
    (pixel : RGB) (palette : List RGB) (paletteLab : List LAB) : Option RGB :=
  let pixelLab := rgbToLab pixel
  ((List.range palette.length).foldl
    (fun (acc : Option ℚ × Option RGB) i =>
      let dist := getDeltaE pixelLab (paletteLab.getD i { l := 0, a := 0, b := 0 })
      match acc.1 with
      | none => (some dist, some (palette.getD i { r := 0, g := 0, b := 0 }))
      | some m =>
          if dist < m then (some dist, some (palette.getD i { r := 0, g := 0, b := 0 }))
          else acc)
    (none, palette.head?)).2

-- === Dither tables ====================================================

/-- An entry of the worker's `ditherMatrices` table. -/
structure DitherMatrix where
  matrix : List (List ℕ)
  size : ℕ
  divisor : ℕ
deriving DecidableEq, Repr

/-- Worker `ditherMatrices` (lines 208–238), as a lookup keyed by algorithm
name (`k in ditherMatrices` becomes `(ditherMatrices k).isSome`). -/
def ditherMatrices (algorithm : String) : Option DitherMatrix :=
  if algorithm = "bayer-4x4" then
    some { matrix := [[0, 8, 2, 10], [12, 4, 14, 6], [3, 11, 1, 9], [15, 7, 13, 5]],
           size := 4, divisor := 16 }
  else if algorithm = "bayer-8x8" then
    some { matrix := [
            [0, 32, 8, 40, 2, 34, 10, 42], [48, 16, 56, 24, 50, 18, 58, 26],
            [12, 44, 4, 36, 14, 46, 6, 38], [60, 28, 52, 20, 62, 30, 54, 22],
            [3, 35, 11, 43, 1, 33, 9, 41], [51, 19, 59, 27, 49, 17, 57, 25],
            [15, 47, 7, 39, 13, 45, 5, 37], [63, 31, 55, 23, 61, 29, 53, 21]],
           size := 8, divisor := 64 }
  else if algorithm = "halftone-dot" then
    some { matrix := [[12, 5, 6, 13], [4, 0, 1, 7], [8, 2, 3, 11], [14, 9, 10, 15]],
           size := 4, divisor := 16 }
  else if algorithm = "diagonal-line" then
    some { matrix := [[15, 7, 3, 7], [7, 3, 7, 15], [3, 7, 15, 7], [7, 15, 7, 3]],
           size := 4, divisor := 16 }
  else if algorithm = "cross-hatch" then
    some { matrix := [[0, 8, 0, 8], [8, 15, 8, 15], [0, 8, 0, 8], [8, 15, 8, 15]],
           size := 4, divisor := 16 }
  else if algorithm = "grid" then
    some { matrix := [[0, 0, 0, 0], [0, 15, 15, 0], [0, 15, 15, 0], [0, 0, 0, 0]],
           size := 4, divisor := 16 }
  else none

/-- One tap of an error-diffusion kernel: neighbour offset and weight. -/
structure Kern where
  dx : ℤ
  dy : ℤ
  f : ℚ
deriving DecidableEq, Repr

/-- Worker `errorKernels` (lines 240–260). -/
def errorKernels (algorithm : String) : Option (List Kern) :=
  if algorithm = "floyd-steinberg" then
    some [⟨1, 0, 7/16⟩, ⟨-1, 1, 3/16⟩, ⟨0, 1, 5/16⟩, ⟨1, 1, 1/16⟩]
  else if algorithm = "burkes" then
    some [⟨1, 0, 8/32⟩, ⟨2, 0, 4/32⟩, ⟨-2, 1, 2/32⟩, ⟨-1, 1, 4/32⟩,
          ⟨0, 1, 8/32⟩, ⟨1, 1, 4/32⟩, ⟨2, 1, 2/32⟩]
  else if algorithm = "stucki" then
    some [⟨1, 0, 8/42⟩, ⟨2, 0, 4/42⟩, ⟨-2, 1, 2/42⟩, ⟨-1, 1, 4/42⟩,
          ⟨0, 1, 8/42⟩, ⟨1, 1, 4/42⟩, ⟨2, 1, 2/42⟩, ⟨-2, 2, 1/42⟩,
          ⟨-1, 2, 2/42⟩, ⟨0, 2, 4/42⟩, ⟨1, 2, 2/42⟩, ⟨2, 2, 1/42⟩]
  else if algorithm = "sierra-2" then
    some [⟨1, 0, 4/16⟩, ⟨2, 0, 3/16⟩, ⟨-2, 1, 1/16⟩, ⟨-1, 1, 2/16⟩,
          ⟨0, 1, 3/16⟩, ⟨1, 1, 2/16⟩, ⟨2, 1, 1/16⟩]
  else if algorithm = "sierra-lite" then
    some [⟨1, 0, 2/4⟩, ⟨-1, 1, 1/4⟩, ⟨0, 1, 1/4⟩]
  else none

-- === applyDithering ===================================================

/-- Loop body of the ordered-dithering branch of `applyDithering` (worker
lines 296–321), for pixel number `pos` in row-major order (`pos = y*width+x`).
State is the mutable `pixels` buffer; `none` is a thrown exception (writing a
member of the `undefined` returned by `findClosestColor` on an empty
palette). -/
def orderedStep (rgbToLab : RGB → LAB) (getDeltaE : LAB → LAB → ℚ)
    (width : ℕ) (paletteRGB : List RGB) (paletteLab : List LAB)
    (dm : DitherMatrix) (strengthFactor : ℚ)
    (st : Option (List ℕ)) (pos : ℕ) : Option (List ℕ) :=
  match st with
  | none => none
  | some pixels =>
    let x := pos % width
    let y := pos / width
    let index := (y * width + x) * 4
    if pixels.getD (index + 3) 0 < 128 then some (pixels.set (index + 3) 0)
    else
      let mX := x % dm.size
      let mY := y % dm.size
      let threshold := (dm.matrix.getD mY []).getD mX 0
      let nudge := ((threshold : ℚ) / (dm.divisor : ℚ) - 1/2) * 64 * strengthFactor
      let oldColor : RGB :=
        { r := max 0 (min 255 ((pixels.getD index 0 : ℚ) + nudge))
          g := max 0 (min 255 ((pixels.getD (index + 1) 0 : ℚ) + nudge))
          b := max 0 (min 255 ((pixels.getD (index + 2) 0 : ℚ) + nudge)) }
      match findClosestColor rgbToLab getDeltaE oldColor paletteRGB paletteLab with
      | none => none
      | some newColor =>
          some (((((pixels.set index (clampByte newColor.r)).set
                    (index + 1) (clampByte newColor.g)).set
                    (index + 2) (clampByte newColor.b)).set
                    (index + 3) 255))

/-- State of the error-diffusion branch: the byte buffer being written and the
`Float32Array` working copy holding accumulated error. -/
structure DiffState where
  pixels : List ℕ
  work : List ℚ
deriving DecidableEq, Repr

/-- Loop body of the error-diffusion branch of `applyDithering` (worker lines
327–363) for pixel number `pos` in row-major order. -/
def diffuseStep (rgbToLab : RGB → LAB) (getDeltaE : LAB → LAB → ℚ)
    (width height : ℕ) (paletteRGB : List RGB) (paletteLab : List LAB)
    (algorithm : String) (strengthFactor : ℚ)
    (st : Option DiffState) (pos : ℕ) : Option DiffState :=
  match st with
  | none => none
  | some s =>
    let x := pos % width
    let y := pos / width
    let index := (y * width + x) * 4
    if s.work.getD (index + 3) 0 < 128 then
      some { pixels := s.pixels.set (index + 3) 0, work := s.work }
    else
      let oldColor : RGB :=
        { r := s.work.getD index 0
          g := s.work.getD (index + 1) 0
          b := s.work.getD (index + 2) 0 }
      match findClosestColor rgbToLab getDeltaE oldColor paletteRGB paletteLab with
      | none => none
      | some newColor =>
        let pixels' :=
          ((((s.pixels.set index (clampByte newColor.r)).set
              (index + 1) (clampByte newColor.g)).set
              (index + 2) (clampByte newColor.b)).set
              (index + 3) 255)
        if algorithm = "none" ∨ errorKernels algorithm = none then
          some { pixels := pixels', work := s.work }
        else
          let err : RGB :=
            { r := (oldColor.r - newColor.r) * strengthFactor
              g := (oldColor.g - newColor.g) * strengthFactor
              b := (oldColor.b - newColor.b) * strengthFactor }
          let work' := ((errorKernels algorithm).getD []).foldl
            (fun wk k =>
              let nX := (x : ℤ) + k.dx
              let nY := (y : ℤ) + k.dy
              if 0 ≤ nX ∧ nX < (width : ℤ) ∧ 0 ≤ nY ∧ nY < (height : ℤ) then
                let i2 := (nY.toNat * width + nX.toNat) * 4
                if wk.getD (i2 + 3) 0 < 128 then wk
                else (((wk.set i2 (wk.getD i2 0 + err.r * k.f)).set
                        (i2 + 1) (wk.getD (i2 + 1) 0 + err.g * k.f)).set
                        (i2 + 2) (wk.getD (i2 + 2) 0 + err.b * k.f))
              else wk)
            s.work
          some { pixels := pixels', work := work' }

/-- The full error-diffusion pass: row-major fold of `diffuseStep` starting
from the byte buffer and its exact `Float32Array` copy. -/
def diffusionPass (rgbToLab : RGB → LAB) (getDeltaE : LAB → LAB → ℚ)
    (img : ImageData) (paletteRGB : List RGB) (paletteLab : List LAB)
    (algorithm : String) (strengthFactor : ℚ) : Option DiffState :=
  (List.range (img.height * img.width)).foldl
    (diffuseStep rgbToLab getDeltaE img.width img.height paletteRGB paletteLab
      algorithm strengthFactor)
    (some { pixels := img.data, work := img.data.map (fun n => (n : ℚ)) })

/-- The full ordered-dithering pass: row-major fold of `orderedStep`. -/
def orderedPass (rgbToLab : RGB → LAB) (getDeltaE : LAB → LAB → ℚ)
    (img : ImageData) (paletteRGB : List RGB) (paletteLab : List LAB)
    (dm : DitherMatrix) (strengthFactor : ℚ) : Option (List ℕ) :=
  (List.range (img.height * img.width)).foldl
    (orderedStep rgbToLab getDeltaE img.width paletteRGB paletteLab dm strengthFactor)
    (some img.data)

/-- Worker `applyDithering` (lines 278–366).  The source mutates `imageData`
in place; here the mutated buffer is returned (`none` = thrown exception). -/
def applyDithering (rgbToLab : RGB → LAB) (getDeltaE : LAB → LAB → ℚ)
    (img : ImageData) (paletteHex : List String) (algorithm : String)
    (strength : ℚ) : Option ImageData :=
  let paletteRGB := paletteHex.map hexToRgb
  let paletteLab := paletteRGB.map rgbToLab
  let strengthFactor := strength / 100
  match ditherMatrices algorithm with
  | some dm =>
      (orderedPass rgbToLab getDeltaE img paletteRGB paletteLab dm strengthFactor).map
        (fun pixels => { img with data := pixels })
  | none =>
      (diffusionPass rgbToLab getDeltaE img paletteRGB paletteLab algorithm
        strengthFactor).map
        (fun s => { img with data := s.pixels })

-- === kmeans ===========================================================

/-- Per-point assignment step of `kmeans` (worker lines 390–398): index of the
nearest centroid by squared Euclidean RGB distance, first wins on ties.  The
`min_dist = Infinity` / `best_centroid = -1` initial state is `(none, -1)`. -/
def assignPoint (centroids : List (List ℚ)) (k : ℕ) (p : List ℚ) : ℤ :=
  ((List.range k).foldl
    (fun (acc : Option ℚ × ℤ) j =>
      let cj := centroids.getD j []
      let dist := (p.getD 0 0 - cj.getD 0 0) ^ 2 + (p.getD 1 0 - cj.getD 1 0) ^ 2 +
        (p.getD 2 0 - cj.getD 2 0) ^ 2
      match acc.1 with
      | none => (some dist, (j : ℤ))
      | some m => if dist < m then (some dist, (j : ℤ)) else acc)
    (none, -1)).2

/-- One step of the cluster-summing loop of `kmeans` (worker lines 402–408):
add the point to its cluster's running sum and bump the count.  The
JavaScript array index `assignments[i]` is in `[0, k)` whenever it was
produced by the assignment loop, so its `toNat` view is exact. -/
def clusterAccum (acc : List (List ℚ) × List ℕ) (pa : List ℚ × ℤ) :
    List (List ℚ) × List ℕ :=
  (acc.1.modify (fun c => [c.getD 0 0 + pa.1.getD 0 0, c.getD 1 0 + pa.1.getD 1 0,
      c.getD 2 0 + pa.1.getD 2 0]) pa.2.toNat,
   acc.2.modify (· + 1) pa.2.toNat)

/-- One step of the divide/reseed loop of `kmeans` (worker lines 410–418):
divide a non-empty cluster's sums by its count, reseed an empty cluster from
a random input point (consuming one `Math.random()` draw). -/
def divideReseed (random : ℕ → ℚ) (data : List (List ℚ)) (counts : List ℕ)
    (acc : List (List ℚ) × ℕ) (i : ℕ) : List (List ℚ) × ℕ :=
  let cnti := counts.getD i 0
  if 0 < cnti then
    (acc.1.modify (fun c => [c.getD 0 0 / (cnti : ℚ), c.getD 1 0 / (cnti : ℚ),
        c.getD 2 0 / (cnti : ℚ)]) i, acc.2)
  else
    (acc.1.set i (data.getD (Int.toNat ⌊random acc.2 * (data.length : ℚ)⌋) []),
     acc.2 + 1)

/-- Centroid recomputation of one `kmeans` round (worker lines 400–418): sum
the points of each cluster, divide by the count, and reseed empty clusters
from a random input point.  `random`/`cnt` model the `Math.random()` call
stream; the returned counter accounts for the reseed draws. -/
def recomputeCentroids (random : ℕ → ℚ) (data : List (List ℚ)) (k : ℕ)
    (assignments : List ℤ) (cnt : ℕ) : List (List ℚ) × ℕ :=
  let sums := (data.zip assignments).foldl clusterAccum
    (List.replicate k [0, 0, 0], List.replicate k 0)
  (List.range k).foldl (divideReseed random data sums.2) (sums.1, cnt)

/-- The iteration loop of `kmeans` (worker lines 389–428), with the iteration
cap as explicit fuel.  On every round: assign, recompute, compare with exact
equality on all three channels, stop early when nothing moved.  On exit the
centroids are the freshly recomputed ones and the assignments are the ones
computed against the previous centroids, exactly as in the source. -/
def kmeansLoop (random : ℕ → ℚ) (data : List (List ℚ)) (k : ℕ) :
    ℕ → List (List ℚ) → List ℤ → ℕ → List (List ℚ) × List ℤ
  | 0, centroids, assignments, _ => (centroids, assignments)
  | fuel + 1, centroids, assignments, cnt =>
    let assignments' := data.map (assignPoint centroids k)
    let rec' := recomputeCentroids random data k assignments' cnt
    let newCentroids := rec'.1
    let changed := (List.range k).any fun i =>
      decide ((centroids.getD i []).getD 0 0 ≠ (newCentroids.getD i []).getD 0 0 ∨
              (centroids.getD i []).getD 1 0 ≠ (newCentroids.getD i []).getD 1 0 ∨
              (centroids.getD i []).getD 2 0 ≠ (newCentroids.getD i []).getD 2 0)
    if changed then kmeansLoop random data k fuel newCentroids assignments' rec'.2
    else (newCentroids, assignments')

/-- Initialisation of `kmeans` (worker lines 380–385): draw `k` points without
replacement, `splice` removing each drawn point (`List.eraseIdx`, which like
`splice` is a no-op out of range).  Returns the centroids and the number of
`Math.random()` draws consumed. -/
def initCentroids (random : ℕ → ℚ) (data : List (List ℚ)) (k : ℕ) :
    List (List ℚ) × ℕ :=
  let r := (List.range k).foldl
    (fun (acc : List (List ℚ) × List (List ℚ) × ℕ) _ =>
      let index := Int.toNat ⌊random acc.2.2 * (acc.1.length : ℚ)⌋
      (acc.1.eraseIdx index, acc.2.1 ++ [acc.1.getD index []], acc.2.2 + 1))
    (data, [], 0)
  (r.2.1, r.2.2)

/-- Worker `kmeans` (lines 370–432).  The promise resolves synchronously, so
it is a pure function of the data, the requested `k`, the iteration cap
(`maxIter`, 20 at every call site) and the `Math.random()` stream. -/
def kmeans (random : ℕ → ℚ) (data : List (List ℚ)) (k0 maxIter : ℕ) :
    List (List ℚ) × List ℤ :=
  let k := if k0 > data.length then data.length else k0
  if k = 0 then ([], [])
  else
    let init := initCentroids random data k
    kmeansLoop random data k maxIter init.1 (List.replicate data.length (-1)) init.2


-- === suggestMissingColors =============================================

/-- A scored centroid of `suggestMissingColors`: its hex colour and its total
error contribution (the `error`/`count` fields of the source record feed only
into `totalError` and the hex output, so the pair captures the record). -/
structure CentroidErr where
  hex : String
  totalError : ℚ
deriving DecidableEq, Repr

/-- Stable insertion of one element into a list sorted by descending
`totalError` (the `sort((a, b) => b.totalError - a.totalError)` order; modern
engines sort stably). -/
def insertDesc (x : CentroidErr) : List CentroidErr → List CentroidErr
  | [] => [x]
  | y :: ys => if y.totalError < x.totalError then x :: y :: ys else y :: insertDesc x ys

/-- Stable descending sort by `totalError`. -/
def sortDesc (l : List CentroidErr) : List CentroidErr := l.foldr insertDesc []

/-- The sampling stride of `suggestMissingColors` (worker lines 456–459):
`Math.ceil((pixels.length / 4) / 4096) * 4`, in exact arithmetic. -/
def sampleStride (len : ℕ) : ℕ := Int.toNat ⌈((len : ℚ) / 4) / 4096⌉ * 4

/-- The sampled indices `i = 0, step, 2·step, … < len` of the worker's
`for (let i = 0; i < pixels.length; i += step)` loop (empty when `step = 0`,
in which case the loop body never runs because `len = 0`). -/
def strideIdxs (len step : ℕ) : List ℕ :=
  if step = 0 then [] else (List.range ((len + step - 1) / step)).map (· * step)

/-- Worker `suggestMissingColors` (lines 442–516): sample opaque pixels, run
k-means with `k = min(128, samples)`, score each non-empty cluster by
`ΔE(centroid, nearest palette colour) · count`, sort descending, return the
top `numToSuggest` hex colours.  The inner minimum-ΔE fold starts from the
JavaScript `Infinity` (= `none`); the palette is non-empty on this path, so
the fold always produces a finite value, and the unreachable `none` default
is read as `0`. -/
def suggestMissingColors (random : ℕ → ℚ) (rgbToLab : RGB → LAB)
    (getDeltaE : LAB → LAB → ℚ) (imageData : ImageData)
    (paletteHex : List String) (numToSuggest : ℕ) : List String :=
  if paletteHex.length = 0 then [] else
  let paletteRGB := paletteHex.map hexToRgb
  let paletteLAB := paletteRGB.map rgbToLab
  let pixels := imageData.data
  let step := sampleStride pixels.length
  let pixelArray := (strideIdxs pixels.length step).filterMap fun i =>
    if pixels.getD (i + 3) 0 > 128 then
      some [(pixels.getD i 0 : ℚ), (pixels.getD (i + 1) 0 : ℚ), (pixels.getD (i + 2) 0 : ℚ)]
    else none
  if pixelArray.length = 0 then [] else
  let k := min 128 pixelArray.length
  let res := kmeans random pixelArray k 20
  let centroids := res.1
  let assignments := res.2
  let pixelCounts := assignments.foldl
    (fun (counts : List ℕ) a => counts.modify (· + 1) a.toNat)
    (List.replicate centroids.length 0)
  let centroidErrors := (List.range centroids.length).filterMap fun i =>
    let c := centroids.getD i []
    let count := pixelCounts.getD i 0
    if count = 0 then none else
    let centroidColorRGB : RGB :=
      { r := (jsRound (c.getD 0 0) : ℚ), g := (jsRound (c.getD 1 0) : ℚ),
        b := (jsRound (c.getD 2 0) : ℚ) }
    let centroidColorLAB := rgbToLab centroidColorRGB
    let minDeltaE := paletteLAB.foldl
      (fun (m : Option ℚ) colorLAB =>
        let dist := getDeltaE centroidColorLAB colorLAB
        match m with
        | none => some dist
        | some mv => if dist < mv then some dist else m)
      none
    some { hex := rgbToHex centroidColorRGB, totalError := minDeltaE.getD 0 * (count : ℚ) }
  ((sortDesc centroidErrors).take numToSuggest).map (·.hex)

-- === applyColorModifiers ==============================================

/-- Brightness stage of `applyColorModifiers` (worker lines 536–540): additive
on each channel, skipped entirely when the parameter is exactly `0`. -/
def brightnessStep (brightness : ℚ) (p : RGB) : RGB :=
  if brightness ≠ 0 then
    { r := p.r + brightness, g := p.g + brightness, b := p.b + brightness }
  else p

/-- Contrast stage (worker lines 542–547): `factor·(c−128)+128` with
`factor = 259·(contrast+255) / (255·(259−contrast))`, skipped when `0`. -/
def contrastStep (contrast : ℚ) (p : RGB) : RGB :=
  let contrastFactor := (259 * (contrast + 255)) / (255 * (259 - contrast))
  if contrast ≠ 0 then
    { r := contrastFactor * (p.r - 128) + 128
      g := contrastFactor * (p.g - 128) + 128
      b := contrastFactor * (p.b - 128) + 128 }
  else p

/-- Saturation stage (worker lines 549–557): multiplicative around the luma
`0.2989·R + 0.5870·G + 0.1140·B`, skipped when `0`. -/
def saturationStep (saturation : ℚ) (p : RGB) : RGB :=
  if saturation ≠ 0 then
    let gray := 0.2989 * p.r + 0.5870 * p.g + 0.1140 * p.b
    let satMult := 1 + saturation / 100
    { r := gray + (p.r - gray) * satMult
      g := gray + (p.g - gray) * satMult
      b := gray + (p.b - gray) * satMult }
  else p

/-- The per-pixel body of `applyColorModifiers` (worker lines 530–557):
brightness, then contrast, then saturation, each guarded by its own
skip-if-zero test, working on unclamped rationals. -/
def modifyPixel (brightness contrast saturation : ℚ) (p : RGB) : RGB :=
  saturationStep saturation (contrastStep contrast (brightnessStep brightness p))

/-- Worker `applyColorModifiers` (lines 518–565): copies the buffer
(`new Uint8ClampedArray(data)`) and rewrites only the R, G, B slot of every
pixel; the alpha slot (`i % 4 = 3`) keeps its copied value.  Clamping happens
only at the write-back into the 8-bit buffer (`clampByte`).  Each loop
iteration reads and writes only its own four slots, so the in-place loop is
the per-index map below. -/
def applyColorModifiers (imageData : ImageData)
    (brightness contrast saturation : ℚ) : ImageData :=
  { width := imageData.width, height := imageData.height,
    data := (List.range imageData.data.length).map fun j =>
      if j % 4 = 3 then imageData.data.getD j 0
      else
        let i := j / 4 * 4
        let p := modifyPixel brightness contrast saturation
          { r := (imageData.data.getD i 0 : ℚ)
            g := (imageData.data.getD (i + 1) 0 : ℚ)
            b := (imageData.data.getD (i + 2) 0 : ℚ) }
        clampByte (if j % 4 = 0 then p.r else if j % 4 = 1 then p.g else p.b) }

-- === Resamplers =======================================================

/-- Worker `resampleNearest` (lines 72–93).  `new ImageData(w, h)` throws for a
zero dimension (`none`); otherwise the destination buffer of `w·h·4` bytes is
filled pixel by pixel from `⌊x·W₀/W₁⌋, ⌊y·H₀/H₁⌋`. -/
def resampleNearest (srcData : ImageData) (width height : ℕ) : Option ImageData :=
  if width = 0 ∨ height = 0 then none else
  some
    { width := width, height := height,
      data := (List.range (height * width * 4)).map fun j =>
        srcData.data.getD
          ((Int.toNat ⌊((j / 4 / width : ℕ) : ℚ) * ((srcData.height : ℚ) / (height : ℚ))⌋ *
              srcData.width +
            Int.toNat ⌊((j / 4 % width : ℕ) : ℚ) * ((srcData.width : ℚ) / (width : ℚ))⌋) * 4 +
            j % 4) 0 }

/-- Worker `resampleBilinear` (lines 95–132): fractional source coordinates
with ratios `(W₀−1)/W₁`, `(H₀−1)/H₁`, 4-point interpolation per channel
(including alpha), high neighbour clamped into bounds, `Math.round` then
clamped 8-bit store. -/
def resampleBilinear (srcData : ImageData) (width height : ℕ) : Option ImageData :=
  if width = 0 ∨ height = 0 then none else
  let src := srcData.data
  let xr : ℚ := ((srcData.width : ℚ) - 1) / (width : ℚ)
  let yr : ℚ := ((srcData.height : ℚ) - 1) / (height : ℚ)
  some
    { width := width, height := height,
      data := (List.range (height * width * 4)).map fun j =>
      let pos := j / 4
      let c := j % 4
      let x := pos % width
      let y := pos / width
      let srcX := (x : ℚ) * xr
      let srcY := (y : ℚ) * yr
      let x1 := ⌊srcX⌋
      let y1 := ⌊srcY⌋
      let x2 := min (x1 + 1) ((srcData.width : ℤ) - 1)
      let y2 := min (y1 + 1) ((srcData.height : ℤ) - 1)
      let dx := srcX - (x1 : ℚ)
      let dy := srcY - (y1 : ℚ)
      let v1 := (src.getD ((y1.toNat * srcData.width + x1.toNat) * 4 + c) 0 : ℚ)
      let v2 := (src.getD ((y1.toNat * srcData.width + x2.toNat) * 4 + c) 0 : ℚ)
      let v3 := (src.getD ((y2.toNat * srcData.width + x1.toNat) * 4 + c) 0 : ℚ)
      let v4 := (src.getD ((y2.toNat * srcData.width + x2.toNat) * 4 + c) 0 : ℚ)
      let top := v1 * (1 - dx) + v2 * dx
      let bottom := v3 * (1 - dx) + v4 * dx
      roundClamp (top * (1 - dy) + bottom * dy) }

/-- The integer range `[lo, hi]` of the worker's inclusive neighbour loops. -/
def intRange (lo hi : ℤ) : List ℤ :=
  (List.range (Int.toNat (hi - lo + 1))).map (fun t => lo + (t : ℤ))

/-- Worker `resampleLanczos` (lines 134–204), with `Math.sin`/`Math.PI`
abstracted as `sinQ`/`piQ`.  The source accumulates `r`, `g`, `b`, `a_val`
and one shared `totalWeight`; the weight of a cell does not depend on the
channel, so the per-channel accumulation below is the same computation. -/
def resampleLanczos (sinQ : ℚ → ℚ) (piQ : ℚ) (imageData : ImageData)
    (width height : ℕ) : Option ImageData :=
  if width = 0 ∨ height = 0 then none else
  let srcData := imageData.data
  let srcWidth := imageData.width
  let srcHeight := imageData.height
  let sinc : ℚ → ℚ := fun x0 =>
    let x := |x0|
    if x = 0 then 1 else
    let piX := piQ * x
    sinQ piX / piX
  let lancKernel : ℚ → ℚ → ℚ := fun x a =>
    if -a < x ∧ x < a then sinc x * sinc (x / a) else 0
  let rx : ℚ := (srcWidth : ℚ) / (width : ℚ)
  let ry : ℚ := (srcHeight : ℚ) / (height : ℚ)
  some
    { width := width, height := height,
      data := (List.range (height * width * 4)).map fun j =>
      let pos := j / 4
      let ch := j % 4
      let dx := pos % width
      let dy := pos / width
      let sy := ((dy : ℚ) + 1/2) * ry - 1/2
      let sx := ((dx : ℚ) + 1/2) * rx - 1/2
      let startX := ⌊sx⌋ - 3 + 1
      let endX := ⌊sx⌋ + 3
      let startY := ⌊sy⌋ - 3 + 1
      let endY := ⌊sy⌋ + 3
      let acc := (intRange startY endY).foldl
        (fun (acc : ℚ × ℚ) y =>
          if 0 ≤ y ∧ y < (srcHeight : ℤ) then
            (intRange startX endX).foldl
              (fun (acc2 : ℚ × ℚ) x =>
                if 0 ≤ x ∧ x < (srcWidth : ℤ) then
                  let weight := lancKernel (sx - (x : ℚ)) 3 * lancKernel (sy - (y : ℚ)) 3
                  if weight = 0 then acc2
                  else
                    let srcIndex := (y.toNat * srcWidth + x.toNat) * 4
                    (acc2.1 + (srcData.getD (srcIndex + ch) 0 : ℚ) * weight,
                     acc2.2 + weight)
                else acc2)
              acc
          else acc)
        ((0 : ℚ), (0 : ℚ))
      if acc.2 > 0 then clampByte (acc.1 / acc.2) else 0 }

-- === Worker message handler ===========================================

/-- The `settings` object of a `process` request (worker line 585).  Numeric
fields are rationals; `targetWidth`/`targetHeight`/`kmeansColors` are the
integer values the UI supplies (the k-means branch is guarded by
`kmeansColors > 0`, so naturals lose no generality). -/
structure PixelatorSettings where
  targetWidth : ℕ
  targetHeight : ℕ
  ditherMethod : String
  ditherStrength : ℚ
  palette : List String
  resamplingMethod : String
  useKmeans : Bool
  kmeansColors : ℕ
  brightness : ℚ
  contrast : ℚ
  saturation : ℚ
deriving DecidableEq, Repr

/-- A message posted back by the worker.  The `message` string of an error
response is engine-specific exception text, so it is not modelled. -/
inductive WorkerResponse where
  | success (imageData : ImageData)
  | suggestions (colors : List String)
  | error
deriving DecidableEq, Repr

/-- The optional k-means recolouring stage of the `process` handler (worker
lines 604–633): collect opaque pixels (`alpha > 128`), cluster them into
`min(kmeansColors, #pixels)` colours, and rewrite every opaque pixel to its
nearest centroid (Lab matching of the rounded centroids).  The loops step
`i += 4` over the whole buffer.  `none` models the (unreachable) exception of
`findClosestColor` on empty centroids. -/
def kmeansRecolor (random : ℕ → ℚ) (rgbToLab : RGB → LAB)
    (getDeltaE : LAB → LAB → ℚ) (resized : ImageData) (useKmeans : Bool)
    (kmeansColors : ℕ) : Option ImageData :=
  if useKmeans = true ∧ 0 < kmeansColors then
    let pixels := resized.data
    let pixelArray := (List.range ((pixels.length + 3) / 4)).filterMap fun p =>
      let i := 4 * p
      if pixels.getD (i + 3) 0 > 128 then
        some [(pixels.getD i 0 : ℚ), (pixels.getD (i + 1) 0 : ℚ), (pixels.getD (i + 2) 0 : ℚ)]
      else none
    if 0 < pixelArray.length then
      let res := kmeans random pixelArray (min kmeansColors pixelArray.length) 20
      let paletteRGB := res.1.map fun cc =>
        ({ r := (jsRound (cc.getD 0 0) : ℚ), g := (jsRound (cc.getD 1 0) : ℚ),
           b := (jsRound (cc.getD 2 0) : ℚ) } : RGB)
      let paletteLab := paletteRGB.map rgbToLab
      let data' := (List.range ((pixels.length + 3) / 4)).foldl
        (fun (st : Option (List ℕ)) p =>
          match st with
          | none => none
          | some px =>
            let i := 4 * p
            if px.getD (i + 3) 0 > 128 then
              let pixelColor : RGB :=
                { r := (px.getD i 0 : ℚ), g := (px.getD (i + 1) 0 : ℚ),
                  b := (px.getD (i + 2) 0 : ℚ) }
              match findClosestColor rgbToLab getDeltaE pixelColor paletteRGB paletteLab with
              | none => none
              | some cl =>
                  some (((px.set i (clampByte cl.r)).set (i + 1) (clampByte cl.g)).set
                    (i + 2) (clampByte cl.b))
            else some px)
        (some pixels)
      data'.map fun d => { resized with data := d }
    else some resized
  else some resized

/-- Resampler dispatch of the `process` handler (worker lines 595–602):
`lanczos` and `bilinear` by name, nearest-neighbour for anything else. -/
def resampleDispatch (sinQ : ℚ → ℚ) (piQ : ℚ) (img : ImageData)
    (s : PixelatorSettings) : Option ImageData :=
  if s.resamplingMethod = "lanczos" then
    resampleLanczos sinQ piQ img s.targetWidth s.targetHeight
  else if s.resamplingMethod = "bilinear" then
    resampleBilinear img s.targetWidth s.targetHeight
  else
    resampleNearest img s.targetWidth s.targetHeight

/-- The `process` branch of `self.onmessage` (worker lines 584–644):
modifiers → resample → optional k-means recolour → dithering only when the
palette is non-empty (`if (palette && palette.length > 0)`), posting
`success` with the resized buffer, or `error` for any caught exception. -/
def processMessage (random : ℕ → ℚ) (sinQ : ℚ → ℚ) (piQ : ℚ)
    (rgbToLab : RGB → LAB) (getDeltaE : LAB → LAB → ℚ)
    (imageData : ImageData) (s : PixelatorSettings) : WorkerResponse :=
  let processedImageData :=
    if s.brightness ≠ 0 ∨ s.contrast ≠ 0 ∨ s.saturation ≠ 0 then
      applyColorModifiers imageData s.brightness s.contrast s.saturation
    else imageData
  match resampleDispatch sinQ piQ processedImageData s with
  | none => .error
  | some resized =>
    match kmeansRecolor random rgbToLab getDeltaE resized s.useKmeans s.kmeansColors with
    | none => .error
    | some resized2 =>
      if 0 < s.palette.length then
        match applyDithering rgbToLab getDeltaE resized2 s.palette s.ditherMethod
            s.ditherStrength with
        | some out => .success out
        | none => .error
      else .success resized2

/-- The `suggest` branch of `self.onmessage` (worker lines 572–582):
`numSuggestions || 5` substitutes the default `5` for a falsy (zero) count. -/
def suggestMessage (random : ℕ → ℚ) (rgbToLab : RGB → LAB)
    (getDeltaE : LAB → LAB → ℚ) (imageData : ImageData)
    (palette : List String) (numSuggestions : ℕ) : WorkerResponse :=
  .suggestions (suggestMissingColors random rgbToLab getDeltaE imageData palette
    (if numSuggestions = 0 then 5 else numSuggestions))

-- === Buffer-identity model of the process handler =====================

/-- The `process` handler with JavaScript reference semantics made explicit:
a store of pixel buffers in allocation order, the caller's `imageData.data`
buffer at index `0`.  `applyColorModifiers` allocates a fresh copy and writes
only that copy; each resampler allocates its `new ImageData` destination; the
k-means recolour loop and `applyDithering` mutate the resized buffer in place
(`List.set` on its store slot).  The result is the final store together with
the index of the posted buffer (`none` when an exception was caught and an
error response posted).  Stage contents reuse the pure embeddings above. -/
def processWithStore (random : ℕ → ℚ) (sinQ : ℚ → ℚ) (piQ : ℚ)
    (rgbToLab : RGB → LAB) (getDeltaE : LAB → LAB → ℚ)
    (imageData : ImageData) (s : PixelatorSettings) :
    List (List ℕ) × Option ℕ :=
  let store0 := [imageData.data]
  let modsOn := s.brightness ≠ 0 ∨ s.contrast ≠ 0 ∨ s.saturation ≠ 0
  let processedImageData :=
    if modsOn then applyColorModifiers imageData s.brightness s.contrast s.saturation
    else imageData
  let store1 := if modsOn then store0 ++ [processedImageData.data] else store0
  match resampleDispatch sinQ piQ processedImageData s with
  | none => (store1, none)
  | some resized =>
    let rIdx := store1.length
    let store2 := store1 ++ [resized.data]
    match kmeansRecolor random rgbToLab getDeltaE resized s.useKmeans s.kmeansColors with
    | none => (store2, none)
    | some resized2 =>
      let store3 := store2.set rIdx resized2.data
      if 0 < s.palette.length then
        match applyDithering rgbToLab getDeltaE resized2 s.palette s.ditherMethod
            s.ditherStrength with
        | some out => (store3.set rIdx out.data, some rIdx)
        | none => (store3, none)
      else (store3, some rIdx)

-- === Concrete parameter instances (for witnesses only) ================

/-- A concrete stand-in for the opaque Lab conversion, used to instantiate
the universally quantified theorems at witness points. -/
def labSample (c : RGB) : LAB := { l := c.r, a := c.g, b := c.b }

/-- A concrete stand-in for the opaque ΔE distance (squared Euclidean). -/
def deltaESample (x y : LAB) : ℚ :=
  (x.l - y.l) ^ 2 + (x.a - y.a) ^ 2 + (x.b - y.b) ^ 2

/-- A concrete `Math.random` stream. -/
def randSample (_ : ℕ) : ℚ := 1/2

/-- A concrete `Math.sin` stand-in. -/
def sinSample (_ : ℚ) : ℚ := 0

-- === List helper lemmas ===============================================

theorem getD_set_ne {α} (l : List α) (i j : ℕ) (v d : α) (h : i ≠ j) :
    (l.set i v).getD j d = l.getD j d := by
  rcases Nat.lt_or_ge j l.length with hj | hj
  · rw [List.getD_eq_getElem _ _ (by simpa using hj), List.getD_eq_getElem _ _ hj]
    exact List.getElem_set_ne h _
  · rw [List.getD_eq_default _ _ (by simpa using hj), List.getD_eq_default _ _ hj]

theorem getD_set_self {α} (l : List α) (i : ℕ) (v d : α) (h : i < l.length) :
    (l.set i v).getD i d = v := by
  rw [List.getD_eq_getElem _ _ (by simpa using h)]
  exact List.getElem_set_self _

theorem getD_set_self_default {α} (l : List α) (i : ℕ) (d : α) :
    (l.set i d).getD i d = d := by
  rcases Nat.lt_or_ge i l.length with h | h
  · exact getD_set_self l i d d h
  · rw [List.getD_eq_default]
    simpa using h

theorem getD_rangeMap {α} (n j : ℕ) (f : ℕ → α) (d : α) :
    ((List.range n).map f).getD j d = if j < n then f j else d := by
  rcases Nat.lt_or_ge j n with h | h
  · rw [List.getD_eq_getElem _ _ (by simpa using h)]
    simp [h]
  · rw [List.getD_eq_default _ _ (by simpa using h), if_neg (by omega)]

theorem getD_replicate_lt {α} (n i : ℕ) (a d : α) (h : i < n) :
    (List.replicate n a).getD i d = a := by
  rw [List.getD_eq_getElem _ _ (by simpa using h)]
  exact List.getElem_replicate _ _

theorem foldl_preserve {α β} (P : β → Prop) (f : β → α → β) (l : List α) (init : β)
    (h0 : P init) (hstep : ∀ b a, a ∈ l → P b → P (f b a)) : P (l.foldl f init) := by
  induction l generalizing init with
  | nil => simpa using h0
  | cons x xs ih =>
      simp only [List.foldl_cons]
      exact ih (f init x) (hstep init x (by simp) h0)
        (fun b a ha hb => hstep b a (by simp [ha]) hb)

-- === C10 ==============================================================

/-- C10: `hexToRgb` is total: every input string that does not start with an
optional `#` followed by six hexadecimal digits (the prefix-anchored,
case-insensitive regex of worker line 17) is mapped to black
`{r := 0, g := 0, b := 0}` instead of failing, so malformed palette entries
are silently treated as black. -/
theorem claim_C10_hexToRgb_total (s : String) (h : hexMatches s = false) :
    hexToRgb s = { r := 0, g := 0, b := 0 } := by
  unfold hexMatches at h
  unfold hexToRgb
  split at h
  next => simp only [h, Bool.false_eq_true, if_false]
  next => rfl

/-- C10 witness: a concrete malformed string. -/
theorem claim_C10_witness :
    hexMatches "zz0000" = false ∧ hexToRgb "zz0000" = { r := 0, g := 0, b := 0 } :=
  ⟨by decide, claim_C10_hexToRgb_total "zz0000" (by decide)⟩

-- === C4 ===============================================================

/-- C4: nearest-neighbour resampling of a valid raster (dimensions ≥ 1, the
`ImageData` length invariant) to its own dimensions returns a raster that is
pixel-for-pixel identical to the input. -/
theorem claim_C4_resampleNearest_identity (img : ImageData)
    (hw : 1 ≤ img.width) (hh : 1 ≤ img.height)
    (hlen : img.data.length = img.width * img.height * 4) :
    resampleNearest img img.width img.height = some img := by
  have hwq : ((img.width : ℚ) / (img.width : ℚ)) = 1 :=
    div_self (by exact_mod_cast Nat.one_le_iff_ne_zero.mp hw)
  have hhq : ((img.height : ℚ) / (img.height : ℚ)) = 1 :=
    div_self (by exact_mod_cast Nat.one_le_iff_ne_zero.mp hh)
  have hfloor : ∀ m : ℕ, Int.toNat ⌊(m : ℚ) * 1⌋ = m := by
    intro m
    rw [mul_one, Int.floor_natCast]
    exact Int.toNat_natCast m
  unfold resampleNearest
  rw [if_neg (by omega)]
  refine congrArg some (ImageData.ext rfl rfl ?_)
  apply List.ext_getElem
  · simp [hlen]; ring
  · intro j hj hj2
    simp only [List.getElem_map, List.getElem_range]
    rw [hwq, hhq, hfloor, hfloor]
    have hidx : (j / 4 / img.width * img.width + j / 4 % img.width) * 4 + j % 4 = j := by
      have h1 : j / 4 / img.width * img.width + j / 4 % img.width = j / 4 := by
        rw [Nat.mul_comm]
        exact Nat.div_add_mod (j / 4) img.width
      rw [h1, Nat.mul_comm]
      exact Nat.div_add_mod j 4
    rw [hidx]
    exact List.getD_eq_getElem _ _ hj2

/-- C4 witness: a concrete 2×1 raster. -/
theorem claim_C4_witness :
    resampleNearest { width := 2, height := 1, data := [1, 2, 3, 255, 4, 5, 6, 0] } 2 1 =
      some { width := 2, height := 1, data := [1, 2, 3, 255, 4, 5, 6, 0] } :=
  claim_C4_resampleNearest_identity
    { width := 2, height := 1, data := [1, 2, 3, 255, 4, 5, 6, 0] }
    (by decide) (by decide) (by decide)

-- === C6 ===============================================================

/-- C6: `applyColorModifiers` leaves every alpha slot unchanged (only R, G, B
are rewritten), applies the enabled adjustments in the fixed order
brightness → contrast → saturation (each channel triple goes through
`saturationStep ∘ contrastStep ∘ brightnessStep`), and each stage skips
(is the identity) when its parameter is exactly `0`. -/
theorem claim_C6_applyColorModifiers (img : ImageData)
    (brightness contrast saturation : ℚ) :
    (applyColorModifiers img brightness contrast saturation).width = img.width ∧
    (applyColorModifiers img brightness contrast saturation).height = img.height ∧
    (∀ j, j % 4 = 3 →
      (applyColorModifiers img brightness contrast saturation).data.getD j 0 =
        img.data.getD j 0) ∧
    (∀ p, 4 * p + 3 < img.data.length →
      ((applyColorModifiers img brightness contrast saturation).data.getD (4 * p) 0 =
          clampByte (saturationStep saturation (contrastStep contrast (brightnessStep brightness
            { r := (img.data.getD (4 * p) 0 : ℚ), g := (img.data.getD (4 * p + 1) 0 : ℚ),
              b := (img.data.getD (4 * p + 2) 0 : ℚ) }))).r ∧
        (applyColorModifiers img brightness contrast saturation).data.getD (4 * p + 1) 0 =
          clampByte (saturationStep saturation (contrastStep contrast (brightnessStep brightness
            { r := (img.data.getD (4 * p) 0 : ℚ), g := (img.data.getD (4 * p + 1) 0 : ℚ),
              b := (img.data.getD (4 * p + 2) 0 : ℚ) }))).g ∧
        (applyColorModifiers img brightness contrast saturation).data.getD (4 * p + 2) 0 =
          clampByte (saturationStep saturation (contrastStep contrast (brightnessStep brightness
            { r := (img.data.getD (4 * p) 0 : ℚ), g := (img.data.getD (4 * p + 1) 0 : ℚ),
              b := (img.data.getD (4 * p + 2) 0 : ℚ) }))).b)) ∧
    (∀ q : RGB, brightnessStep 0 q = q) ∧
    (∀ q : RGB, contrastStep 0 q = q) ∧
    (∀ q : RGB, saturationStep 0 q = q) := by
  refine ⟨rfl, rfl, ?_, ?_, ?_, ?_, ?_⟩
  · intro j hj
    show ((List.range img.data.length).map _).getD j 0 = img.data.getD j 0
    rw [getD_rangeMap]
    split
    next h => simp only [hj, if_pos rfl]
    next h => rw [List.getD_eq_default _ _ (by omega)]
  · intro p hp
    have e0 : (4 * p) % 4 = 0 := by omega
    have e1 : (4 * p + 1) % 4 = 1 := by omega
    have e2 : (4 * p + 2) % 4 = 2 := by omega
    have d0 : 4 * p / 4 * 4 = 4 * p := by omega
    have d1 : (4 * p + 1) / 4 * 4 = 4 * p := by omega
    have d2 : (4 * p + 2) / 4 * 4 = 4 * p := by omega
    refine ⟨?_, ?_, ?_⟩
    · show ((List.range img.data.length).map _).getD (4 * p) 0 = _
      rw [getD_rangeMap, if_pos (by omega)]
      simp only [e0, d0]
      norm_num [modifyPixel]
    · show ((List.range img.data.length).map _).getD (4 * p + 1) 0 = _
      rw [getD_rangeMap, if_pos (by omega)]
      simp only [e1, d1]
      norm_num [modifyPixel]
    · show ((List.range img.data.length).map _).getD (4 * p + 2) 0 = _
      rw [getD_rangeMap, if_pos (by omega)]
      simp only [e2, d2]
      norm_num [modifyPixel]
  · intro q; simp [brightnessStep]
  · intro q; simp [contrastStep]
  · intro q; simp [saturationStep]

/-- C6 witness: a concrete 1-pixel raster with all three adjustments on,
evaluated at the alpha slot `j = 3` and at a concrete channel triple. -/
theorem claim_C6_witness :
    (applyColorModifiers { width := 1, height := 1, data := [10, 20, 30, 77] }
        5 10 20).data.getD 3 0 = 77 ∧
    brightnessStep 0 { r := 1, g := 2, b := 3 } = { r := 1, g := 2, b := 3 } := by
  constructor
  · rw [(claim_C6_applyColorModifiers { width := 1, height := 1, data := [10, 20, 30, 77] }
      5 10 20).2.2.1 3 rfl]
    rfl
  · exact (claim_C6_applyColorModifiers { width := 1, height := 1, data := [10, 20, 30, 77] }
      5 10 20).2.2.2.2.1 { r := 1, g := 2, b := 3 }

-- === C5 ===============================================================

theorem zip_replicate_self {α β} (n : ℕ) (a : α) (b : β) :
    (List.replicate n a).zip (List.replicate n b) = List.replicate n (a, b) := by
  induction n with
  | zero => rfl
  | succ m ih => simp [List.replicate_succ, ih]

theorem range_one_eq : List.range 1 = [0] := rfl

/-- Summing the cluster-accumulation step over `n` copies of the point
`[a, b, c]`, all assigned to cluster `0`, starting from running sums
`[x, y, z]` and count `m`. -/
theorem clusterAccum_replicate (a b c : ℚ) : ∀ (n : ℕ) (x y z : ℚ) (m : ℕ),
    (List.replicate n ([a, b, c], (0 : ℤ))).foldl clusterAccum ([[x, y, z]], [m]) =
      ([[x + n * a, y + n * b, z + n * c]], [m + n]) := by
  intro n
  induction n with
  | zero => intro x y z m; simp
  | succ nn ih =>
      intro x y z m
      rw [List.replicate_succ, List.foldl_cons]
      show (List.replicate nn ([a, b, c], (0 : ℤ))).foldl clusterAccum
        ([[x + a, y + b, z + c]], [m + 1]) = _
      rw [ih]
      refine congrArg₂ Prod.mk ?_ (congrArg (fun t => [t]) (by omega))
      refine congrArg (fun t => [t]) ?_
      push_cast
      have h1 : x + a + (nn : ℚ) * a = x + ((nn : ℚ) + 1) * a := by ring
      have h2 : y + b + (nn : ℚ) * b = y + ((nn : ℚ) + 1) * b := by ring
      have h3 : z + c + (nn : ℚ) * c = z + ((nn : ℚ) + 1) * c := by ring
      rw [h1, h2, h3]

/-- C5: running `kmeans` on `N ≥ 1` identical RGB points with `K = 1` (and
the source's iteration cap 20) returns exactly one centroid equal to that
colour, all three channels exact, and assigns every point to cluster `0`,
for every `Math.random()` stream (values in `[0, 1)`). -/
theorem claim_C5_kmeans_identical (random : ℕ → ℚ)
    (hr : ∀ n, 0 ≤ random n ∧ random n < 1) (N : ℕ) (hN : 1 ≤ N) (a b c : ℚ) :
    kmeans random (List.replicate N [a, b, c]) 1 20 =
      ([[a, b, c]], List.replicate N 0) := by
  have hNq : (0 : ℚ) < (N : ℚ) := by exact_mod_cast hN
  have hidx : Int.toNat ⌊random 0 * (N : ℚ)⌋ < N := by
    have h0 := (hr 0).1
    have h1 := (hr 0).2
    have hlt : random 0 * (N : ℚ) < (N : ℚ) := by nlinarith
    have hfl : ⌊random 0 * (N : ℚ)⌋ < (N : ℤ) := Int.floor_lt.mpr (by exact_mod_cast hlt)
    omega
  have hinit : initCentroids random (List.replicate N [a, b, c]) 1 = ([[a, b, c]], 1) := by
    unfold initCentroids
    simp only [range_one_eq, List.foldl_cons, List.foldl_nil, List.length_replicate,
      List.nil_append]
    rw [getD_replicate_lt _ _ _ _ hidx]
  have hassign : assignPoint [[a, b, c]] 1 [a, b, c] = 0 := by
    simp [assignPoint, range_one_eq]
  have hrec : recomputeCentroids random (List.replicate N [a, b, c]) 1
      (List.replicate N 0) 1 = ([[a, b, c]], 1) := by
    unfold recomputeCentroids
    rw [zip_replicate_self]
    have : (List.replicate 1 ([0, 0, 0] : List ℚ), List.replicate 1 (0 : ℕ)) =
        (([[(0 : ℚ), 0, 0]]), ([0] : List ℕ)) := rfl
    rw [this, clusterAccum_replicate]
    simp only [range_one_eq, List.foldl_cons, List.foldl_nil]
    unfold divideReseed
    have hc : ([0 + N] : List ℕ).getD 0 0 = N := by simp
    rw [hc, if_pos (by omega)]
    simp only [List.modify]
    refine congrArg₂ Prod.mk ?_ rfl
    show [([(0 : ℚ) + N * a, 0 + N * b, 0 + N * c].getD 0 0 / (N : ℚ)) :: _] = [[a, b, c]]
    have hN0 : ((N : ℕ) : ℚ) ≠ 0 := ne_of_gt hNq
    norm_num
    constructor
    · field_simp
    constructor
    · field_simp
    · field_simp
  have hloop : kmeansLoop random (List.replicate N [a, b, c]) 1 20 [[a, b, c]]
      (List.replicate N (-1)) 1 = ([[a, b, c]], List.replicate N 0) := by
    show kmeansLoop random (List.replicate N [a, b, c]) 1 (19 + 1) [[a, b, c]]
      (List.replicate N (-1)) 1 = _
    unfold kmeansLoop
    simp only [List.map_replicate, hassign, hrec, range_one_eq, List.any_cons, List.any_nil,
      List.getD_cons_zero, List.getD_cons_succ, ne_eq, not_true_eq_false, or_self]
    simp
  unfold kmeans
  simp only [List.length_replicate]
  rw [if_neg (show ¬ (1 > N) by omega)]
  rw [if_neg (show ¬ (1 = 0) by omega)]
  simp only [hinit]
  exact hloop

/-- C5 witness: two identical points, a concrete random stream. -/
theorem claim_C5_witness :
    kmeans randSample (List.replicate 2 [5, 6, 7]) 1 20 =
      ([[5, 6, 7]], List.replicate 2 0) :=
  claim_C5_kmeans_identical randSample
    (fun _ => by constructor <;> norm_num [randSample]) 2 (by norm_num) 5 6 7

-- === C7 ===============================================================

/-- C7: degenerate "nothing to do" inputs return empty results rather than
errors: `kmeans` with `k = 0` returns empty centroids and assignments
immediately; `suggestMissingColors` returns an empty list for an empty
palette, and also when no pixel of the raster has alpha above 128. -/
theorem claim_C7_degenerate_empty (random : ℕ → ℚ) (rgbToLab : RGB → LAB)
    (getDeltaE : LAB → LAB → ℚ) :
    (∀ (data : List (List ℚ)) (fuel : ℕ), kmeans random data 0 fuel = ([], [])) ∧
    (∀ (img : ImageData) (n : ℕ),
      suggestMissingColors random rgbToLab getDeltaE img [] n = []) ∧
    (∀ (img : ImageData) (palette : List String) (n : ℕ),
      (∀ j : ℕ, img.data.getD (4 * j + 3) 0 ≤ 128) →
      suggestMissingColors random rgbToLab getDeltaE img palette n = []) := by
  refine ⟨?_, ?_, ?_⟩
  · intro data fuel
    unfold kmeans
    simp
  · intro img n
    unfold suggestMissingColors
    simp
  · intro img palette n halpha
    unfold suggestMissingColors
    rcases Nat.eq_zero_or_pos palette.length with hp | hp
    · rw [if_pos hp]
    · rw [if_neg (by omega)]
      have hempty : ((strideIdxs img.data.length (sampleStride img.data.length)).filterMap
          fun i => if img.data.getD (i + 3) 0 > 128 then
            some [(img.data.getD i 0 : ℚ), (img.data.getD (i + 1) 0 : ℚ),
              (img.data.getD (i + 2) 0 : ℚ)]
          else none) = [] := by
        rw [List.filterMap_eq_nil_iff]
        intro i hi
        unfold strideIdxs at hi
        split at hi
        · simp at hi
        · simp only [List.mem_map, List.mem_range] at hi
          obtain ⟨u, _, rfl⟩ := hi
          have hi3 : u * sampleStride img.data.length + 3 =
              4 * (u * Int.toNat ⌈((img.data.length : ℚ) / 4) / 4096⌉) + 3 := by
            unfold sampleStride
            ring_nf
          rw [hi3]
          rw [if_neg (by
            have := halpha (u * Int.toNat ⌈((img.data.length : ℚ) / 4) / 4096⌉)
            omega)]
      simp only [hempty]
      simp

/-- C7 witness: concrete degenerate inputs (k = 0; empty palette; a raster
whose only pixel is fully transparent). -/
theorem claim_C7_witness :
    kmeans randSample [[1, 2, 3]] 0 20 = ([], []) ∧
    suggestMissingColors randSample labSample deltaESample
      { width := 1, height := 1, data := [9, 9, 9, 0] } [] 3 = [] ∧
    suggestMissingColors randSample labSample deltaESample
      { width := 1, height := 1, data := [9, 9, 9, 0] } ["#FF0000"] 3 = [] := by
  refine ⟨(claim_C7_degenerate_empty randSample labSample deltaESample).1 [[1, 2, 3]] 20,
    (claim_C7_degenerate_empty randSample labSample deltaESample).2.1
      { width := 1, height := 1, data := [9, 9, 9, 0] } 3,
    (claim_C7_degenerate_empty randSample labSample deltaESample).2.2
      { width := 1, height := 1, data := [9, 9, 9, 0] } ["#FF0000"] 3 ?_⟩
  intro j
  cases j with
  | zero => decide
  | succ m =>
      rw [List.getD_eq_default _ _ (by simp; omega)]
      omega

-- === C3 ===============================================================

/-- The suggestion list is never longer than the count actually passed to
`suggestMissingColors` (the final `slice(0, numToSuggest)`). -/
theorem suggestMissingColors_length_le (random : ℕ → ℚ) (rgbToLab : RGB → LAB)
    (getDeltaE : LAB → LAB → ℚ) (img : ImageData) (palette : List String) (m : ℕ) :
    (suggestMissingColors random rgbToLab getDeltaE img palette m).length ≤ m := by
  unfold suggestMissingColors
  split
  · simp
  · dsimp only
    split
    · simp
    · simp only [List.length_map, List.length_take]
      omega

/-- C3 counterexample: a `suggest` request with `numSuggestions = 0` (one
opaque red pixel, palette `#000000`) returns one suggestion, so the response
length exceeds the requested count — the handler's `numSuggestions || 5`
replaces the falsy count 0 with the default 5. -/
theorem claim_C3_counterexample :
    suggestMessage randSample labSample deltaESample
      { width := 1, height := 1, data := [255, 0, 0, 255] } ["#000000"] 0 =
      .suggestions ["#FF0000"] := by
  with_unfolding_all decide

/-- C3 (amended): for every `suggest` request the returned colour list has
length at most `numSuggestions` when `numSuggestions ≥ 1`; when
`numSuggestions = 0` (falsy), the worker substitutes the default `5`, and the
list has length at most `5`. -/
theorem claim_C3_amended_suggest_count (random : ℕ → ℚ) (rgbToLab : RGB → LAB)
    (getDeltaE : LAB → LAB → ℚ) (img : ImageData) (palette : List String) (n : ℕ) :
    suggestMessage random rgbToLab getDeltaE img palette n =
      .suggestions (suggestMissingColors random rgbToLab getDeltaE img palette
        (if n = 0 then 5 else n)) ∧
    (suggestMissingColors random rgbToLab getDeltaE img palette
        (if n = 0 then 5 else n)).length ≤ (if n = 0 then 5 else n) :=
  ⟨rfl, suggestMissingColors_length_le random rgbToLab getDeltaE img palette _⟩

-- === C1 ===============================================================

/-- C1 counterexample: a `process` request whose settings specify the
dither method `floyd-steinberg` (≠ `none`) together with an empty palette
does NOT produce an error response: the guard `palette.length > 0` silently
skips the dithering stage and the worker posts a success raster produced
without dithering. -/
theorem claim_C1_counterexample :
    processMessage randSample sinSample 0 labSample deltaESample
      { width := 1, height := 1, data := [10, 20, 30, 255] }
      { targetWidth := 1, targetHeight := 1, ditherMethod := "floyd-steinberg",
        ditherStrength := 100, palette := [], resamplingMethod := "nearest",
        useKmeans := false, kmeansColors := 0, brightness := 0, contrast := 0,
        saturation := 0 } =
    .success { width := 1, height := 1, data := [10, 20, 30, 255] } := by
  with_unfolding_all decide

/-- C1 (amended): for every `process` request with an empty palette —
whatever the dither method, including every non-`none` method — the worker
never reaches `applyDithering`: it posts `success` with the raster produced
by the modifier/resample/k-means stages alone (or `error` only if one of
those earlier stages itself threw). -/
theorem claim_C1_amended_empty_palette_skips_dither (random : ℕ → ℚ)
    (sinQ : ℚ → ℚ) (piQ : ℚ) (rgbToLab : RGB → LAB) (getDeltaE : LAB → LAB → ℚ)
    (img : ImageData) (s : PixelatorSettings) (hpal : s.palette = []) :
    processMessage random sinQ piQ rgbToLab getDeltaE img s =
      (match resampleDispatch sinQ piQ
          (if s.brightness ≠ 0 ∨ s.contrast ≠ 0 ∨ s.saturation ≠ 0 then
            applyColorModifiers img s.brightness s.contrast s.saturation
          else img) s with
        | none => .error
        | some resized =>
          match kmeansRecolor random rgbToLab getDeltaE resized s.useKmeans
              s.kmeansColors with
          | none => .error
          | some resized2 => .success resized2) := by
  unfold processMessage
  dsimp only
  cases resampleDispatch sinQ piQ
      (if s.brightness ≠ 0 ∨ s.contrast ≠ 0 ∨ s.saturation ≠ 0 then
        applyColorModifiers img s.brightness s.contrast s.saturation
      else img) s with
  | none => rfl
  | some resized =>
    dsimp only
    cases kmeansRecolor random rgbToLab getDeltaE resized s.useKmeans s.kmeansColors with
    | none => rfl
    | some resized2 =>
        dsimp only
        simp only [hpal, List.length_nil]
        rw [if_neg (by omega)]

/-- C1 witness: a concrete empty-palette request with a non-`none` dither
method flowing through the amended statement to a success response. -/
theorem claim_C1_witness :
    processMessage randSample sinSample 0 labSample deltaESample
      { width := 1, height := 1, data := [1, 2, 3, 200] }
      { targetWidth := 1, targetHeight := 1, ditherMethod := "stucki",
        ditherStrength := 50, palette := [], resamplingMethod := "nearest",
        useKmeans := false, kmeansColors := 0, brightness := 0, contrast := 0,
        saturation := 0 } =
    .success { width := 1, height := 1, data := [1, 2, 3, 200] } :=
  (claim_C1_amended_empty_palette_skips_dither randSample sinSample 0 labSample
    deltaESample
    { width := 1, height := 1, data := [1, 2, 3, 200] }
    { targetWidth := 1, targetHeight := 1, ditherMethod := "stucki",
      ditherStrength := 50, palette := [], resamplingMethod := "nearest",
      useKmeans := false, kmeansColors := 0, brightness := 0, contrast := 0,
      saturation := 0 } rfl).trans (by with_unfolding_all decide)

-- === C8 ===============================================================

/-- C8: a `process` request never mutates the caller's input raster.  In the
buffer-store model (`processWithStore`: caller's buffer at store index 0,
allocations appended, in-place mutations overwrite the owning slot) the
buffer at index 0 after the call is exactly the input bytes, and the posted
result buffer is never the input buffer: modifiers write into a freshly
copied buffer, each resampler allocates a new output buffer, and the k-means
recolour and dithering stages mutate only the freshly allocated resized
buffer. -/
theorem claim_C8_process_preserves_input (random : ℕ → ℚ) (sinQ : ℚ → ℚ)
    (piQ : ℚ) (rgbToLab : RGB → LAB) (getDeltaE : LAB → LAB → ℚ)
    (img : ImageData) (s : PixelatorSettings) :
    (processWithStore random sinQ piQ rgbToLab getDeltaE img s).1.getD 0 [] =
      img.data ∧
    (processWithStore random sinQ piQ rgbToLab getDeltaE img s).2 ≠ some 0 := by
  unfold processWithStore
  dsimp only
  by_cases hmods : s.brightness ≠ 0 ∨ s.contrast ≠ 0 ∨ s.saturation ≠ 0
  · simp only [if_pos hmods]
    cases resampleDispatch sinQ piQ
        (applyColorModifiers img s.brightness s.contrast s.saturation) s with
    | none => exact ⟨rfl, by simp⟩
    | some resized =>
      dsimp only
      cases kmeansRecolor random rgbToLab getDeltaE resized s.useKmeans s.kmeansColors with
      | none => exact ⟨rfl, by simp⟩
      | some resized2 =>
        dsimp only
        by_cases hpal : 0 < s.palette.length
        · simp only [if_pos hpal]
          cases applyDithering rgbToLab getDeltaE resized2 s.palette s.ditherMethod
              s.ditherStrength with
          | none =>
            refine ⟨?_, by simp⟩
            rw [getD_set_ne _ _ _ _ _ (by simp)]
            rfl
          | some out =>
            dsimp only
            refine ⟨?_, by simp⟩
            rw [getD_set_ne _ _ _ _ _ (by simp), getD_set_ne _ _ _ _ _ (by simp)]
            rfl
        · simp only [if_neg hpal]
          refine ⟨?_, by simp⟩
          rw [getD_set_ne _ _ _ _ _ (by simp)]
          rfl
  · simp only [if_neg hmods]
    cases resampleDispatch sinQ piQ img s with
    | none => exact ⟨rfl, by simp⟩
    | some resized =>
      dsimp only
      cases kmeansRecolor random rgbToLab getDeltaE resized s.useKmeans s.kmeansColors with
      | none => exact ⟨rfl, by simp⟩
      | some resized2 =>
        dsimp only
        by_cases hpal : 0 < s.palette.length
        · simp only [if_pos hpal]
          cases applyDithering rgbToLab getDeltaE resized2 s.palette s.ditherMethod
              s.ditherStrength with
          | none =>
            refine ⟨?_, by simp⟩
            rw [getD_set_ne _ _ _ _ _ (by simp)]
            rfl
          | some out =>
            dsimp only
            refine ⟨?_, by simp⟩
            rw [getD_set_ne _ _ _ _ _ (by simp), getD_set_ne _ _ _ _ _ (by simp)]
            rfl
        · simp only [if_neg hpal]
          refine ⟨?_, by simp⟩
          rw [getD_set_ne _ _ _ _ _ (by simp)]
          rfl

-- === C2 / C9 support ==================================================

/-- Hex digit values are at most 15. -/
theorem hexDigitVal_le (c : Char) : hexDigitVal c ≤ 15 := by
  unfold hexDigitVal
  have hn : ∀ d : Char, c ≤ d → c.toNat ≤ d.toNat := fun d h => Char.le_def.mp h
  have e1 : ('9' : Char).toNat = 57 := rfl
  have e2 : ('0' : Char).toNat = 48 := rfl
  have e3 : ('a' : Char).toNat = 97 := rfl
  have e4 : ('f' : Char).toNat = 102 := rfl
  have e5 : ('A' : Char).toNat = 65 := rfl
  have e6 : ('F' : Char).toNat = 70 := rfl
  split
  next h => have := hn '9' h.2; omega
  next =>
    split
    next h => have := hn 'f' h.2; omega
    next =>
      split
      next h => have := hn 'F' h.2; omega
      next => omega

/-- Every channel of a parsed palette colour is a natural number at most
255, so storing it into the byte buffer is exact. -/
theorem clampByte_hexToRgb (s : String) :
    ((clampByte (hexToRgb s).r : ℕ) : ℚ) = (hexToRgb s).r ∧
    ((clampByte (hexToRgb s).g : ℕ) : ℚ) = (hexToRgb s).g ∧
    ((clampByte (hexToRgb s).b : ℕ) : ℚ) = (hexToRgb s).b := by
  have hval : ∀ c1 c2 : Char, (16 * hexDigitVal c1 + hexDigitVal c2) ≤ 255 := by
    intro c1 c2
    have := hexDigitVal_le c1
    have := hexDigitVal_le c2
    omega
  unfold hexToRgb
  split
  next c1 c2 c3 c4 c5 c6 rest heq =>
    split
    · refine ⟨?_, ?_, ?_⟩ <;>
        · show ((clampByte ((_ : ℕ) : ℚ) : ℕ) : ℚ) = _
          rw [clampByte_natCast _ (hval _ _)]
    · refine ⟨?_, ?_, ?_⟩ <;>
        · show ((clampByte ((0 : ℚ)) : ℕ) : ℚ) = _
          rw [show clampByte 0 = 0 from rfl]
          norm_num
  next =>
    refine ⟨?_, ?_, ?_⟩ <;>
      · show ((clampByte ((0 : ℚ)) : ℕ) : ℚ) = _
        rw [show clampByte 0 = 0 from rfl]
        norm_num

/-- The function `findClosestColor` on a non-empty palette always returns a palette
member (the source can only initialise `closest` to `palette[0]` and update
it to some `palette[i]`). -/
theorem findClosestColor_mem (rgbToLab : RGB → LAB) (getDeltaE : LAB → LAB → ℚ)
    (pixel : RGB) (palette : List RGB) (paletteLab : List LAB)
    (h : palette ≠ []) :
    ∃ c, findClosestColor rgbToLab getDeltaE pixel palette paletteLab = some c ∧
      ∃ j, j < palette.length ∧ c = palette.getD j { r := 0, g := 0, b := 0 } := by
  unfold findClosestColor
  refine foldl_preserve
    (fun acc : Option ℚ × Option RGB => ∃ c, acc.2 = some c ∧
      ∃ j, j < palette.length ∧ c = palette.getD j { r := 0, g := 0, b := 0 })
    _ _ _ ?_ ?_
  · obtain ⟨x, xs, rfl⟩ := List.exists_cons_of_ne_nil h
    exact ⟨x, rfl, 0, by simp, rfl⟩
  · intro acc i hi hP
    simp only [List.mem_range] at hi
    rcases acc with ⟨m?, c?⟩
    cases m? with
    | none => exact ⟨_, rfl, i, hi, rfl⟩
    | some m =>
        dsimp only
        split
        · exact ⟨_, rfl, i, hi, rfl⟩
        · exact hP

/-- The per-pixel postcondition of one dithering pass over original bytes
`d0`: a transparent input pixel (alpha < 128) gets alpha forced to 0 with
RGB untouched; an opaque one gets alpha 255 and its RGB set to a palette
member (as stored through the byte buffer). -/
def ditherPost (d0 : List ℕ) (paletteRGB : List RGB) (px : List ℕ) (q : ℕ) : Prop :=
  if d0.getD (4 * q + 3) 0 < 128 then
    px.getD (4 * q + 3) 0 = 0 ∧ px.getD (4 * q) 0 = d0.getD (4 * q) 0 ∧
    px.getD (4 * q + 1) 0 = d0.getD (4 * q + 1) 0 ∧
    px.getD (4 * q + 2) 0 = d0.getD (4 * q + 2) 0
  else
    px.getD (4 * q + 3) 0 = 255 ∧ ∃ j, j < paletteRGB.length ∧
      px.getD (4 * q) 0 = clampByte (paletteRGB.getD j { r := 0, g := 0, b := 0 }).r ∧
      px.getD (4 * q + 1) 0 = clampByte (paletteRGB.getD j { r := 0, g := 0, b := 0 }).g ∧
      px.getD (4 * q + 2) 0 = clampByte (paletteRGB.getD j { r := 0, g := 0, b := 0 }).b

/-- The predicate `ditherPost` only looks at the four slots of pixel `q`. -/
theorem ditherPost_congr (d0 : List ℕ) (paletteRGB : List RGB) (px px' : List ℕ)
    (q : ℕ) (h : ∀ c, c ≤ 3 → px'.getD (4 * q + c) 0 = px.getD (4 * q + c) 0)
    (hp : ditherPost d0 paletteRGB px q) : ditherPost d0 paletteRGB px' q := by
  unfold ditherPost at hp ⊢
  have h0 := h 0 (by omega)
  have h1 := h 1 (by omega)
  have h2 := h 2 (by omega)
  have h3 := h 3 (by omega)
  rw [Nat.add_zero] at h0
  split at hp
  next ht => rw [if_pos ht, h0, h1, h2, h3]; exact hp
  next ht => rw [if_neg ht, h0, h1, h2, h3]; exact hp

/-- Invariant of the ordered-dithering loop: after processing the first `n`
pixels the buffer exists (no exception on a non-empty palette), later slots
are untouched, and each processed pixel satisfies `ditherPost`. -/
theorem orderedPass_inv (rgbToLab : RGB → LAB) (getDeltaE : LAB → LAB → ℚ)
    (width : ℕ) (d0 : List ℕ) (paletteRGB : List RGB) (paletteLab : List LAB)
    (dm : DitherMatrix) (sf : ℚ) (hpal : paletteRGB ≠ []) (n : ℕ) :
    ∃ px, (List.range n).foldl
        (orderedStep rgbToLab getDeltaE width paletteRGB paletteLab dm sf)
        (some d0) = some px ∧
      px.length = d0.length ∧
      (∀ i, 4 * n ≤ i → px.getD i 0 = d0.getD i 0) ∧
      (∀ q, q < n → ditherPost d0 paletteRGB px q) := by
  induction n with
  | zero => exact ⟨d0, rfl, rfl, fun i _ => rfl, fun q hq => absurd hq (by omega)⟩
  | succ m ih =>
    obtain ⟨px, hfold, hlen, huntouched, hpost⟩ := ih
    rw [List.range_succ, List.foldl_append, hfold]
    simp only [List.foldl_cons, List.foldl_nil]
    unfold orderedStep
    dsimp only
    have hsum : m / width * width + m % width = m := by
      rw [Nat.mul_comm]
      exact Nat.div_add_mod m width
    have hindex : (m / width * width + m % width) * 4 = 4 * m := by
      rw [hsum, Nat.mul_comm]
    rw [hindex]
    rw [huntouched (4 * m + 3) (by omega)]
    by_cases htr : d0.getD (4 * m + 3) 0 < 128
    · rw [if_pos htr]
      refine ⟨px.set (4 * m + 3) 0, rfl, by rw [List.length_set]; exact hlen, ?_, ?_⟩
      · intro i hi
        rw [getD_set_ne _ _ _ _ _ (by omega)]
        exact huntouched i (by omega)
      · intro q hq
        by_cases hq' : q < m
        · refine ditherPost_congr d0 paletteRGB px _ q ?_ (hpost q hq')
          intro c hc
          rw [getD_set_ne _ _ _ _ _ (by omega)]
        · have hqm : q = m := by omega
          subst hqm
          unfold ditherPost
          rw [if_pos htr]
          refine ⟨getD_set_self_default _ _ _, ?_, ?_, ?_⟩ <;>
            · rw [getD_set_ne _ _ _ _ _ (by omega)]
              exact huntouched _ (by omega)
    · rw [if_neg htr]
      have hbound : 4 * m + 3 < d0.length := by
        by_contra hb
        rw [List.getD_eq_default _ _ (by omega)] at htr
        omega
      obtain ⟨cc, hfc, j, hj, hcc⟩ := findClosestColor_mem rgbToLab getDeltaE
        { r := max 0 (min 255 ((px.getD (4 * m) 0 : ℚ) +
            (((dm.matrix.getD (m / width % dm.size) []).getD (m % width % dm.size) 0 : ℚ) /
              (dm.divisor : ℚ) - 1 / 2) * 64 * sf))
          g := max 0 (min 255 ((px.getD (4 * m + 1) 0 : ℚ) +
            (((dm.matrix.getD (m / width % dm.size) []).getD (m % width % dm.size) 0 : ℚ) /
              (dm.divisor : ℚ) - 1 / 2) * 64 * sf))
          b := max 0 (min 255 ((px.getD (4 * m + 2) 0 : ℚ) +
            (((dm.matrix.getD (m / width % dm.size) []).getD (m % width % dm.size) 0 : ℚ) /
              (dm.divisor : ℚ) - 1 / 2) * 64 * sf)) }
        paletteRGB paletteLab hpal
      rw [hfc]
      refine ⟨_, rfl, ?_, ?_, ?_⟩
      · simp only [List.length_set]
        exact hlen
      · intro i hi
        rw [getD_set_ne _ _ _ _ _ (by omega), getD_set_ne _ _ _ _ _ (by omega),
          getD_set_ne _ _ _ _ _ (by omega), getD_set_ne _ _ _ _ _ (by omega)]
        exact huntouched i (by omega)
      · intro q hq
        by_cases hq' : q < m
        · refine ditherPost_congr d0 paletteRGB px _ q ?_ (hpost q hq')
          intro c hc
          rw [getD_set_ne _ _ _ _ _ (by omega), getD_set_ne _ _ _ _ _ (by omega),
            getD_set_ne _ _ _ _ _ (by omega), getD_set_ne _ _ _ _ _ (by omega)]
        · have hqm : q = m := by omega
          rw [hqm]
          unfold ditherPost
          rw [if_neg htr]
          have hlen3 : 4 * m + 3 <
              (((px.set (4 * m) (clampByte cc.r)).set (4 * m + 1) (clampByte cc.g)).set
                (4 * m + 2) (clampByte cc.b)).length := by
            simp only [List.length_set]
            omega
          refine ⟨getD_set_self _ _ _ _ hlen3, j, hj, ?_, ?_, ?_⟩
          · rw [getD_set_ne _ _ _ _ _ (by omega), getD_set_ne _ _ _ _ _ (by omega),
              getD_set_ne _ _ _ _ _ (by omega),
              getD_set_self _ _ _ _ (by rw [hlen]; omega), hcc]
          · rw [getD_set_ne _ _ _ _ _ (by omega), getD_set_ne _ _ _ _ _ (by omega),
              getD_set_self _ _ _ _ (by simp only [List.length_set]; rw [hlen]; omega), hcc]
          · rw [getD_set_ne _ _ _ _ _ (by omega),
              getD_set_self _ _ _ _ (by simp only [List.length_set]; rw [hlen]; omega), hcc]

/-- Casting a byte buffer to its `Float32Array` copy commutes with reads. -/
theorem getD_map_cast (l : List ℕ) (i : ℕ) :
    (l.map (fun v => (v : ℚ))).getD i 0 = ((l.getD i 0 : ℕ) : ℚ) := by
  induction l generalizing i with
  | nil => simp
  | cons x xs ihx =>
      cases i with
      | zero => rfl
      | succ i2 => exact ihx i2

/-- Invariant of the error-diffusion loop: after processing the first `n`
pixels the state exists (no exception on a non-empty palette), the alpha
entries of the floating-point working copy still hold the input raster's
alpha values (error is only ever diffused into R, G, B slots), later byte
slots are untouched, and each processed pixel satisfies `ditherPost`. -/
theorem diffusionPass_inv (rgbToLab : RGB → LAB) (getDeltaE : LAB → LAB → ℚ)
    (width height : ℕ) (d0 : List ℕ) (paletteRGB : List RGB)
    (paletteLab : List LAB) (alg : String) (sf : ℚ) (hpal : paletteRGB ≠ [])
    (n : ℕ) :
    ∃ st : DiffState, (List.range n).foldl
        (diffuseStep rgbToLab getDeltaE width height paletteRGB paletteLab alg sf)
        (some { pixels := d0, work := d0.map (fun v => (v : ℚ)) }) = some st ∧
      st.pixels.length = d0.length ∧
      (∀ j, st.work.getD (4 * j + 3) 0 = ((d0.getD (4 * j + 3) 0 : ℕ) : ℚ)) ∧
      (∀ i, 4 * n ≤ i → st.pixels.getD i 0 = d0.getD i 0) ∧
      (∀ q, q < n → ditherPost d0 paletteRGB st.pixels q) := by
  induction n with
  | zero =>
    exact ⟨_, rfl, rfl, fun j => getD_map_cast d0 (4 * j + 3), fun i _ => rfl,
      fun q hq => absurd hq (by omega)⟩
  | succ m ih =>
    obtain ⟨st, hfold, hlen, hwork, huntouched, hpost⟩ := ih
    rw [List.range_succ, List.foldl_append, hfold]
    simp only [List.foldl_cons, List.foldl_nil]
    unfold diffuseStep
    dsimp only
    have hsum : m / width * width + m % width = m := by
      rw [Nat.mul_comm]
      exact Nat.div_add_mod m width
    have hindex : (m / width * width + m % width) * 4 = 4 * m := by
      rw [hsum, Nat.mul_comm]
    rw [hindex, hwork m]
    by_cases htr : d0.getD (4 * m + 3) 0 < 128
    · rw [if_pos (by exact_mod_cast htr)]
      refine ⟨{ pixels := st.pixels.set (4 * m + 3) 0, work := st.work }, rfl,
        by rw [List.length_set]; exact hlen, hwork, ?_, ?_⟩
      · intro i hi
        rw [getD_set_ne _ _ _ _ _ (by omega)]
        exact huntouched i (by omega)
      · intro q hq
        by_cases hq' : q < m
        · refine ditherPost_congr d0 paletteRGB st.pixels _ q ?_ (hpost q hq')
          intro c hc
          rw [getD_set_ne _ _ _ _ _ (by omega)]
        · have hqm : q = m := by omega
          rw [hqm]
          unfold ditherPost
          rw [if_pos htr]
          refine ⟨getD_set_self_default _ _ _, ?_, ?_, ?_⟩ <;>
            · rw [getD_set_ne _ _ _ _ _ (by omega)]
              exact huntouched _ (by omega)
    · rw [if_neg (by
        intro hc
        exact htr (by exact_mod_cast hc))]
      have hbound : 4 * m + 3 < d0.length := by
        by_contra hb
        rw [List.getD_eq_default _ _ (by omega)] at htr
        omega
      obtain ⟨cc, hfc, j, hj, hcc⟩ := findClosestColor_mem rgbToLab getDeltaE
        { r := st.work.getD (4 * m) 0
          g := st.work.getD (4 * m + 1) 0
          b := st.work.getD (4 * m + 2) 0 }
        paletteRGB paletteLab hpal
      rw [hfc]
      dsimp only
      set px2 := (((st.pixels.set (4 * m) (clampByte cc.r)).set
        (4 * m + 1) (clampByte cc.g)).set (4 * m + 2) (clampByte cc.b)).set
        (4 * m + 3) 255 with hpx2
      have hlen2 : px2.length = d0.length := by
        rw [hpx2]
        simp only [List.length_set]
        exact hlen
      have hunt2 : ∀ i, 4 * (m + 1) ≤ i → px2.getD i 0 = d0.getD i 0 := by
        intro i hi
        rw [hpx2, getD_set_ne _ _ _ _ _ (by omega), getD_set_ne _ _ _ _ _ (by omega),
          getD_set_ne _ _ _ _ _ (by omega), getD_set_ne _ _ _ _ _ (by omega)]
        exact huntouched i (by omega)
      have hpost2 : ∀ q, q < m + 1 → ditherPost d0 paletteRGB px2 q := by
        intro q hq
        by_cases hq' : q < m
        · refine ditherPost_congr d0 paletteRGB st.pixels _ q ?_ (hpost q hq')
          intro c hc
          rw [hpx2, getD_set_ne _ _ _ _ _ (by omega), getD_set_ne _ _ _ _ _ (by omega),
            getD_set_ne _ _ _ _ _ (by omega), getD_set_ne _ _ _ _ _ (by omega)]
        · have hqm : q = m := by omega
          rw [hqm]
          unfold ditherPost
          rw [if_neg htr]
          have hlen3 : 4 * m + 3 <
              (((st.pixels.set (4 * m) (clampByte cc.r)).set (4 * m + 1)
                (clampByte cc.g)).set (4 * m + 2) (clampByte cc.b)).length := by
            simp only [List.length_set]
            omega
          rw [hpx2]
          refine ⟨getD_set_self _ _ _ _ hlen3, j, hj, ?_, ?_, ?_⟩
          · rw [getD_set_ne _ _ _ _ _ (by omega), getD_set_ne _ _ _ _ _ (by omega),
              getD_set_ne _ _ _ _ _ (by omega),
              getD_set_self _ _ _ _ (by rw [hlen]; omega), hcc]
          · rw [getD_set_ne _ _ _ _ _ (by omega), getD_set_ne _ _ _ _ _ (by omega),
              getD_set_self _ _ _ _ (by simp only [List.length_set]; rw [hlen]; omega), hcc]
          · rw [getD_set_ne _ _ _ _ _ (by omega),
              getD_set_self _ _ _ _ (by simp only [List.length_set]; rw [hlen]; omega), hcc]
      split
      · exact ⟨_, rfl, hlen2, hwork, hunt2, hpost2⟩
      · refine ⟨_, rfl, hlen2, ?_, hunt2, hpost2⟩
        refine foldl_preserve
          (fun wk : List ℚ => ∀ j2, wk.getD (4 * j2 + 3) 0 = ((d0.getD (4 * j2 + 3) 0 : ℕ) : ℚ))
          _ _ _ hwork ?_
        intro wk k hk hP j2
        dsimp only
        split
        · split
          · exact hP j2
          · rw [getD_set_ne _ _ _ _ _ (by omega), getD_set_ne _ _ _ _ _ (by omega),
              getD_set_ne _ _ _ _ _ (by omega)]
            exact hP j2
        · exact hP j2

-- === C2 ===============================================================

/-- C2: for every input raster, non-empty palette, dithering algorithm other
than `"none"`, and strength in `[0, 100]`, `applyDithering` succeeds and every
output pixel either has alpha exactly 0 with its RGB bytes untouched (input
alpha < 128), or has alpha exactly 255 and RGB exactly equal to one of the
parsed palette entries (input alpha ≥ 128); no intermediate alpha occurs. -/
theorem claim_C2_dither_palette_closure (rgbToLab : RGB → LAB)
    (getDeltaE : LAB → LAB → ℚ) (img : ImageData) (paletteHex : List String)
    (alg : String) (strength : ℚ) (hpal : paletteHex ≠ []) (halg : alg ≠ "none")
    (hs0 : 0 ≤ strength) (hs1 : strength ≤ 100) :
    ∃ out, applyDithering rgbToLab getDeltaE img paletteHex alg strength = some out ∧
      out.width = img.width ∧ out.height = img.height ∧
      ∀ q, q < img.width * img.height →
        (if img.data.getD (4 * q + 3) 0 < 128 then
          out.data.getD (4 * q + 3) 0 = 0 ∧
          out.data.getD (4 * q) 0 = img.data.getD (4 * q) 0 ∧
          out.data.getD (4 * q + 1) 0 = img.data.getD (4 * q + 1) 0 ∧
          out.data.getD (4 * q + 2) 0 = img.data.getD (4 * q + 2) 0
        else
          out.data.getD (4 * q + 3) 0 = 255 ∧ ∃ j, j < paletteHex.length ∧
            ((out.data.getD (4 * q) 0 : ℕ) : ℚ) = (hexToRgb (paletteHex.getD j "")).r ∧
            ((out.data.getD (4 * q + 1) 0 : ℕ) : ℚ) = (hexToRgb (paletteHex.getD j "")).g ∧
            ((out.data.getD (4 * q + 2) 0 : ℕ) : ℚ) = (hexToRgb (paletteHex.getD j "")).b) := by
  have hpal' : paletteHex.map hexToRgb ≠ [] := by
    simpa using hpal
  have hconv : ∀ (px : List ℕ) (q : ℕ), ditherPost img.data (paletteHex.map hexToRgb) px q →
      (if img.data.getD (4 * q + 3) 0 < 128 then
        px.getD (4 * q + 3) 0 = 0 ∧
        px.getD (4 * q) 0 = img.data.getD (4 * q) 0 ∧
        px.getD (4 * q + 1) 0 = img.data.getD (4 * q + 1) 0 ∧
        px.getD (4 * q + 2) 0 = img.data.getD (4 * q + 2) 0
      else
        px.getD (4 * q + 3) 0 = 255 ∧ ∃ j, j < paletteHex.length ∧
          ((px.getD (4 * q) 0 : ℕ) : ℚ) = (hexToRgb (paletteHex.getD j "")).r ∧
          ((px.getD (4 * q + 1) 0 : ℕ) : ℚ) = (hexToRgb (paletteHex.getD j "")).g ∧
          ((px.getD (4 * q + 2) 0 : ℕ) : ℚ) = (hexToRgb (paletteHex.getD j "")).b) := by
    intro px q hp
    unfold ditherPost at hp
    split at hp
    next ht => rw [if_pos ht]; exact hp
    next ht =>
      rw [if_neg ht]
      obtain ⟨ha, j, hj, hr, hg, hb⟩ := hp
      rw [List.length_map] at hj
      have hmap : (paletteHex.map hexToRgb).getD j { r := 0, g := 0, b := 0 } =
          hexToRgb (paletteHex.getD j "") := by
        rw [show ({ r := 0, g := 0, b := 0 } : RGB) = hexToRgb "" from rfl]
        exact List.getD_map _ _ _
      rw [hmap] at hr hg hb
      obtain ⟨hcr, hcg, hcb⟩ := clampByte_hexToRgb (paletteHex.getD j "")
      exact ⟨ha, j, hj, by rw [hr]; exact hcr, by rw [hg]; exact hcg, by rw [hb]; exact hcb⟩
  unfold applyDithering
  dsimp only
  cases hdm : ditherMatrices alg with
  | some dm =>
    obtain ⟨px, hfoldpx, hlen, hunt, hpost⟩ := orderedPass_inv rgbToLab getDeltaE
      img.width img.data (paletteHex.map hexToRgb)
      ((paletteHex.map hexToRgb).map rgbToLab) dm (strength / 100) hpal'
      (img.height * img.width)
    dsimp only
    unfold orderedPass
    rw [hfoldpx, Option.map_some']
    refine ⟨_, rfl, rfl, rfl, ?_⟩
    intro q hq
    exact hconv px q (hpost q (by rwa [Nat.mul_comm] at hq))
  | none =>
    obtain ⟨st, hfoldst, hlen, hwork, hunt, hpost⟩ := diffusionPass_inv rgbToLab getDeltaE
      img.width img.height img.data (paletteHex.map hexToRgb)
      ((paletteHex.map hexToRgb).map rgbToLab) alg (strength / 100) hpal'
      (img.height * img.width)
    dsimp only
    unfold diffusionPass
    rw [hfoldst, Option.map_some']
    refine ⟨_, rfl, rfl, rfl, ?_⟩
    intro q hq
    exact hconv st.pixels q (hpost q (by rwa [Nat.mul_comm] at hq))

/-- C2 witness: a 1×2 raster with one transparent and one opaque pixel,
palette `#0A0B0C`, ordered dithering at strength 50. -/
theorem claim_C2_witness :
    ∃ out, applyDithering labSample deltaESample
        { width := 2, height := 1, data := [1, 2, 3, 10, 200, 30, 40, 255] }
        ["#0A0B0C"] "bayer-4x4" 50 = some out ∧
      out.width = 2 ∧ out.height = 1 ∧
      ∀ q, q < 2 * 1 →
        (if ([1, 2, 3, 10, 200, 30, 40, 255] : List ℕ).getD (4 * q + 3) 0 < 128 then
          out.data.getD (4 * q + 3) 0 = 0 ∧
          out.data.getD (4 * q) 0 = ([1, 2, 3, 10, 200, 30, 40, 255] : List ℕ).getD (4 * q) 0 ∧
          out.data.getD (4 * q + 1) 0 =
            ([1, 2, 3, 10, 200, 30, 40, 255] : List ℕ).getD (4 * q + 1) 0 ∧
          out.data.getD (4 * q + 2) 0 =
            ([1, 2, 3, 10, 200, 30, 40, 255] : List ℕ).getD (4 * q + 2) 0
        else
          out.data.getD (4 * q + 3) 0 = 255 ∧ ∃ j, j < (["#0A0B0C"] : List String).length ∧
            ((out.data.getD (4 * q) 0 : ℕ) : ℚ) =
              (hexToRgb ((["#0A0B0C"] : List String).getD j "")).r ∧
            ((out.data.getD (4 * q + 1) 0 : ℕ) : ℚ) =
              (hexToRgb ((["#0A0B0C"] : List String).getD j "")).g ∧
            ((out.data.getD (4 * q + 2) 0 : ℕ) : ℚ) =
              (hexToRgb ((["#0A0B0C"] : List String).getD j "")).b) :=
  claim_C2_dither_palette_closure labSample deltaESample
    { width := 2, height := 1, data := [1, 2, 3, 10, 200, 30, 40, 255] }
    ["#0A0B0C"] "bayer-4x4" 50 (by simp) (by simp) (by norm_num) (by norm_num)

-- === C9 ===============================================================

/-- C9: during error-diffusion dithering the alpha entries of the
floating-point working copy are never written: after any prefix of `k` loop
steps (the full pass is the prefix `k = height·width`, first conjunct), every
working-copy alpha value still equals the input raster's alpha byte, so the
transparency test of a pixel — and the test deciding whether a neighbour may
receive diffused error — is determined solely by the input raster's alpha;
error propagation can never flip a pixel's transparent/opaque class. -/
theorem claim_C9_diffusion_work_alpha (rgbToLab : RGB → LAB)
    (getDeltaE : LAB → LAB → ℚ) (img : ImageData) (paletteRGB : List RGB)
    (paletteLab : List LAB) (alg : String) (sf : ℚ) (k j : ℕ) :
    (diffusionPass rgbToLab getDeltaE img paletteRGB paletteLab alg sf =
      ((List.range (img.height * img.width)).take (img.height * img.width)).foldl
        (diffuseStep rgbToLab getDeltaE img.width img.height paletteRGB paletteLab
          alg sf)
        (some { pixels := img.data, work := img.data.map (fun n => (n : ℚ)) })) ∧
    (match ((List.range (img.height * img.width)).take k).foldl
        (diffuseStep rgbToLab getDeltaE img.width img.height paletteRGB paletteLab
          alg sf)
        (some { pixels := img.data, work := img.data.map (fun n => (n : ℚ)) }) with
      | none => True
      | some st =>
        st.work.getD (4 * j + 3) 0 = ((img.data.getD (4 * j + 3) 0 : ℕ) : ℚ) ∧
        (st.work.getD (4 * j + 3) 0 < 128 ↔ img.data.getD (4 * j + 3) 0 < 128)) := by
  constructor
  · unfold diffusionPass
    rw [List.take_of_length_le (by simp)]
  · have hmain := foldl_preserve
      (fun o : Option DiffState => ∀ (j3 : ℕ) (s2 : DiffState), o = some s2 →
        s2.work.getD (4 * j3 + 3) 0 = ((img.data.getD (4 * j3 + 3) 0 : ℕ) : ℚ))
      (diffuseStep rgbToLab getDeltaE img.width img.height paletteRGB paletteLab alg sf)
      ((List.range (img.height * img.width)).take k)
      (some { pixels := img.data, work := img.data.map (fun n => (n : ℚ)) })
      (by
        intro j3 s2 h
        rcases Option.some_inj.mp h with rfl
        exact getD_map_cast img.data (4 * j3 + 3))
      (by
        intro o pos hpos hP j3 s2 heq
        cases o with
        | none =>
          unfold diffuseStep at heq
          exact Option.noConfusion heq
        | some s =>
          unfold diffuseStep at heq
          dsimp only at heq
          split at heq
          · rcases Option.some_inj.mp heq with rfl
            exact hP j3 s rfl
          · split at heq
            · exact Option.noConfusion heq
            · split at heq
              · rcases Option.some_inj.mp heq with rfl
                exact hP j3 s rfl
              · rcases Option.some_inj.mp heq with rfl
                refine foldl_preserve
                  (fun wk : List ℚ =>
                    wk.getD (4 * j3 + 3) 0 = ((img.data.getD (4 * j3 + 3) 0 : ℕ) : ℚ))
                  _ _ _ (hP j3 s rfl) ?_
                intro wk kk hkk hPk
                dsimp only
                split
                · split
                  · exact hPk
                  · rw [getD_set_ne _ _ _ _ _ (by omega), getD_set_ne _ _ _ _ _ (by omega),
                      getD_set_ne _ _ _ _ _ (by omega)]
                    exact hPk
                · exact hPk)
    cases hst : ((List.range (img.height * img.width)).take k).foldl
        (diffuseStep rgbToLab getDeltaE img.width img.height paletteRGB paletteLab
          alg sf)
        (some { pixels := img.data, work := img.data.map (fun n => (n : ℚ)) }) with
    | none => exact trivial
    | some s =>
      have h1 := hmain j s hst
      refine ⟨h1, ?_⟩
      rw [h1]
      constructor
      · intro h2
        exact_mod_cast h2
      · intro h2
        exact_mod_cast h2

/-- C8 witness: a concrete request evaluated through the store model. -/
theorem claim_C8_witness :
    (processWithStore randSample sinSample 0 labSample deltaESample
      { width := 1, height := 1, data := [40, 50, 60, 255] }
      { targetWidth := 1, targetHeight := 1, ditherMethod := "none",
        ditherStrength := 0, palette := ["#000000"], resamplingMethod := "nearest",
        useKmeans := false, kmeansColors := 0, brightness := 3, contrast := 0,
        saturation := 0 }).1.getD 0 [] = [40, 50, 60, 255] ∧
    (processWithStore randSample sinSample 0 labSample deltaESample
      { width := 1, height := 1, data := [40, 50, 60, 255] }
      { targetWidth := 1, targetHeight := 1, ditherMethod := "none",
        ditherStrength := 0, palette := ["#000000"], resamplingMethod := "nearest",
        useKmeans := false, kmeansColors := 0, brightness := 3, contrast := 0,
        saturation := 0 }).2 ≠ some 0 :=
  ⟨(claim_C8_process_preserves_input randSample sinSample 0 labSample deltaESample
      { width := 1, height := 1, data := [40, 50, 60, 255] }
      { targetWidth := 1, targetHeight := 1, ditherMethod := "none",
        ditherStrength := 0, palette := ["#000000"], resamplingMethod := "nearest",
        useKmeans := false, kmeansColors := 0, brightness := 3, contrast := 0,
        saturation := 0 }).1,
   (claim_C8_process_preserves_input randSample sinSample 0 labSample deltaESample
      { width := 1, height := 1, data := [40, 50, 60, 255] }
      { targetWidth := 1, targetHeight := 1, ditherMethod := "none",
        ditherStrength := 0, palette := ["#000000"], resamplingMethod := "nearest",
        useKmeans := false, kmeansColors := 0, brightness := 3, contrast := 0,
        saturation := 0 }).2⟩
